import Mathlib

/-!
Shallow embedding of the distributor product-recommendation engine of the
door-builder-app repository (src/catalog/distributors.py), together with the
numeric-coercion behavior of the recommendation pipeline entry point
(src/catalog/views.py, ProductRecommendationsView).

Python dictionaries of door specifications are modelled as a structure of
optional fields (a missing key is `none`); every read site performs the same
`dict.get(key, default)` defaulting as the source.  Numeric values are
modelled as `Rat` (Python floats are used only for comparisons against small
decimal constants here, so exact rationals are a faithful model).  The static
product catalogs are transcribed verbatim.
-/

namespace DoorBuilder

/-- Python value occurring in a serialized recommendation dictionary. -/
inductive PyVal where
  | str (s : String)
  | none
  | list (l : List String)
  | dict (l : List (String × String))
deriving DecidableEq, Repr

/-- Serialization of an optional string: Python `None` or a string. -/
def optStr : Option String → PyVal
  | some s => .str s
  | Option.none => .none

/-- Model of the ProductRecommendation class (distributors.py lines 13-52).
The constructor defaults `model_numbers`/`features`/`specs_match` to empty and
`price_range` to None; all call sites in the three matchers go through the
vendors' `_create_recommendation` helpers. -/
structure ProductRecommendation where
  name : String
  category : String
  description : String
  url : String
  image_url : Option String := Option.none
  model_numbers : List String := []
  features : List String := []
  specs_match : List (String × String) := []
  price_range : Option String := Option.none
  distributor : String := ""
deriving DecidableEq, Repr

/-- Model of ProductRecommendation.to_dict: an ordered association list with
exactly the keys written by the source. -/
def ProductRecommendation.to_dict (r : ProductRecommendation) : List (String × PyVal) :=
  [ ("name", .str r.name)
  , ("category", .str r.category)
  , ("description", .str r.description)
  , ("url", .str r.url)
  , ("image_url", optStr r.image_url)
  , ("model_numbers", .list r.model_numbers)
  , ("features", .list r.features)
  , ("specs_match", .dict r.specs_match)
  , ("price_range", optStr r.price_range)
  , ("distributor", .str r.distributor) ]

/-- One static catalog entry.  The descriptive fields are present on every
entry in the source; the constraint-like fields (`door_types`, `fire_rated`,
`max_door_width`, `min_door_width`, `thickness_min`, `has_glass`,
`manufacturer`) appear only on some entries and are read through `.get` with
defaults, hence optional here. -/
structure CatalogProduct where
  name : String
  description : String
  url : String
  model_numbers : List String := []
  features : List String := []
  door_types : List String := []
  fire_rated : Option Bool := Option.none
  max_door_width : Option Rat := Option.none
  min_door_width : Option Rat := Option.none
  thickness_min : Option String := Option.none
  has_glass : Option Bool := Option.none
  price_range : Option String := Option.none
  manufacturer : Option String := Option.none
deriving DecidableEq, Repr

/-- Static vendor metadata (BaseDistributor.name/website/logo_url). -/
structure DistributorMeta where
  name : String
  website : String
  logo_url : String
deriving DecidableEq, Repr

/-- Model of the caller-supplied specification dictionary: every recognized
key is optional (absent key = `none`); each matcher applies its own
`specs.get` default at its read site, exactly as in the source. -/
structure DoorSpecs where
  width : Option Rat := Option.none
  height : Option Rat := Option.none
  thickness : Option String := Option.none
  doorType : Option String := Option.none
  material : Option String := Option.none
  hardware : Option (List String) := Option.none
  fireRating : Option String := Option.none
  hasGlass : Option Bool := Option.none
  glassType : Option String := Option.none
  prepType : Option String := Option.none
  hingeCount : Option Int := Option.none
  specialtyType : Option String := Option.none
  acoustical : Option Bool := Option.none
  bulletResistant : Option Bool := Option.none
  blastResistant : Option Bool := Option.none
  hurricaneResistant : Option Bool := Option.none
  attackResistant : Option Bool := Option.none
  floodResistant : Option Bool := Option.none
  leadLined : Option Bool := Option.none
  emiShielding : Option Bool := Option.none
  aesthetic : Option Bool := Option.none
deriving DecidableEq, Repr

/-- Model of Python str.lower() as used on the caller's hardware tokens
(distributors.py line 306): per-character lowercasing.  All tokens the
matcher compares against are ASCII, for which Char.toLower agrees with
Python. -/
def pyLower (s : String) : String := String.mk (s.data.map Char.toLower)

namespace DormakabaDistributor

/-- Dormakaba vendor metadata (distributors.py lines 92-94). -/
def info : DistributorMeta :=
  { name := "Dormakaba"
  , website := "https://www.dormakaba.com/us-en"
  , logo_url := "https://www.dormakaba.com/resource/image/27440/landscape_ratio16x9/1920/1080/bb5bad74bf8ad14ec6969bb6c6a0d6c/uD/dormakaba-logo-sharing.jpg" }

/-- PRODUCTS["door_closers"]["surface_mounted"]. -/
def surface_mounted : List CatalogProduct :=
  [ { name := "8600 Series Surface Door Closer"
    , description := "Heavy-duty surface mounted closer for high-traffic commercial applications. Features adjustable closing and latching speeds."
    , url := "https://www.dormakaba.com/us-en/offering/products/door-hardware/door-closers"
    , model_numbers := ["8616", "8626", "8646"]
    , features := ["Adjustable backcheck", "Delayed action option", "Hold-open arm available"]
    , door_types := ["commercial", "exterior-entry"]
    , fire_rated := some true
    , max_door_width := some 48
    , price_range := some "$150-300" }
  , { name := "7400 Series Surface Door Closer"
    , description := "Standard duty surface closer ideal for interior and light commercial doors."
    , url := "https://www.dormakaba.com/us-en/offering/products/door-hardware/door-closers"
    , model_numbers := ["7416", "7426"]
    , features := ["Tri-pack installation", "Adjustable spring power"]
    , door_types := ["interior", "commercial"]
    , fire_rated := some true
    , max_door_width := some 42
    , price_range := some "$100-200" } ]

/-- PRODUCTS["door_closers"]["concealed"]. -/
def concealed : List CatalogProduct :=
  [ { name := "RTS88 Concealed Overhead Closer"
    , description := "Concealed in-frame closer for a clean architectural appearance. Ideal for aluminum and glass doors."
    , url := "https://www.dormakaba.com/us-en/offering/products/door-hardware/door-closers"
    , model_numbers := ["RTS88"]
    , features := ["Concealed installation", "Adjustable backcheck", "Hold-open function"]
    , door_types := ["commercial", "exterior-entry", "interior"]
    , fire_rated := some true
    , max_door_width := some 48
    , price_range := some "$300-500" } ]

/-- PRODUCTS["mechanical_locks"]["mortise"]. -/
def mortise : List CatalogProduct :=
  [ { name := "8200 Series Mortise Lock"
    , description := "Heavy-duty mortise lock for commercial applications. Multiple function options available."
    , url := "https://www.dormakaba.com/us-en/offering/products/door-hardware/mechanical-door-locks"
    , model_numbers := ["8215", "8217", "8225", "8243"]
    , features := ["Grade 1 certified", "Fire rated", "Multiple lever styles"]
    , door_types := ["commercial", "exterior-entry"]
    , thickness_min := some "1-3/4"
    , fire_rated := some true
    , price_range := some "$300-600" } ]

/-- PRODUCTS["mechanical_locks"]["cylindrical"]. -/
def cylindrical : List CatalogProduct :=
  [ { name := "W Series Cylindrical Lock"
    , description := "Heavy-duty cylindrical lock for commercial and institutional applications."
    , url := "https://www.dormakaba.com/us-en/offering/products/door-hardware/mechanical-door-locks"
    , model_numbers := ["W101", "W301", "W501"]
    , features := ["Grade 1 certified", "Large variety of lever designs", "IC core compatible"]
    , door_types := ["commercial", "interior"]
    , thickness_min := some "1-3/8"
    , fire_rated := some true
    , price_range := some "$150-350" }
  , { name := "QCL Series Cylindrical Lock"
    , description := "QuickConnect technology for easy installation. Ideal for educational and healthcare facilities."
    , url := "https://www.dormakaba.com/us-en/offering/products/door-hardware/mechanical-door-locks"
    , model_numbers := ["QCL150", "QCL170", "QCL230"]
    , features := ["Tool-free installation", "Grade 2 certified", "Classroom function available"]
    , door_types := ["interior", "commercial"]
    , thickness_min := some "1-3/8"
    , fire_rated := some true
    , price_range := some "$100-250" } ]

/-- PRODUCTS["mechanical_locks"]["deadbolt"]. -/
def deadbolt : List CatalogProduct :=
  [ { name := "DB Series Deadbolt"
    , description := "Heavy-duty deadbolt for maximum security. Available in single and double cylinder options."
    , url := "https://www.dormakaba.com/us-en/offering/products/door-hardware/mechanical-door-locks"
    , model_numbers := ["DB1000", "DB2000"]
    , features := ["Grade 1 certified", "1\" throw bolt", "IC core compatible"]
    , door_types := ["exterior-entry", "commercial"]
    , fire_rated := some false
    , price_range := some "$80-200" } ]

/-- PRODUCTS["exit_devices"]["rim"]. -/
def rim : List CatalogProduct :=
  [ { name := "9000 Series Rim Exit Device"
    , description := "Heavy-duty rim exit device for high-traffic emergency egress. Touch bar or cross bar options."
    , url := "https://www.dormakaba.com/us-en/offering/products/door-hardware/door-hardware-exit-devices"
    , model_numbers := ["9100", "9200", "9300"]
    , features := ["Grade 1 certified", "Fire rated up to 3 hours", "Dogging function"]
    , door_types := ["commercial", "exterior-entry"]
    , fire_rated := some true
    , min_door_width := some 30
    , max_door_width := some 48
    , price_range := some "$400-800" } ]

/-- PRODUCTS["exit_devices"]["narrow_stile"]. -/
def narrow_stile : List CatalogProduct :=
  [ { name := "9000NS Narrow Stile Exit Device"
    , description := "Designed for aluminum and glass storefront doors with narrow stile profiles."
    , url := "https://www.dormakaba.com/us-en/offering/products/door-hardware/door-hardware-exit-devices"
    , model_numbers := ["9100NS", "9200NS"]
    , features := ["Fits 1-3/4\" to 2\" stiles", "Touch bar operation", "Field reversible"]
    , door_types := ["commercial"]
    , has_glass := some true
    , price_range := some "$500-900" } ]

/-- PRODUCTS["low_energy_operators"]. -/
def low_energy_operators : List CatalogProduct :=
  [ { name := "ED900 Low Energy Swing Door Operator"
    , description := "Electromechanical operator for ADA-compliant automatic door opening. Push-and-go activation."
    , url := "https://www.dormakaba.com/us-en/offering/products/door-hardware/low-energy-swing-door-operators"
    , model_numbers := ["ED900", "ED910", "ED920"]
    , features := ["ADA compliant", "Push-and-go", "Obstacle detection", "Battery backup option"]
    , door_types := ["commercial", "exterior-entry", "interior"]
    , fire_rated := some true
    , max_door_width := some 48
    , price_range := some "$1,500-3,000" }
  , { name := "ED700 Electrified Door Operator"
    , description := "Full-featured automatic operator for high-traffic entrances and ADA accessibility."
    , url := "https://www.dormakaba.com/us-en/offering/products/door-hardware/low-energy-swing-door-operators"
    , model_numbers := ["ED700"]
    , features := ["Touchless activation", "Integration with access control", "Hold-open function"]
    , door_types := ["commercial", "exterior-entry"]
    , price_range := some "$2,000-4,000" } ]

/-- PRODUCTS["fire_life_safety"]. -/
def fire_life_safety : List CatalogProduct :=
  [ { name := "Electromagnetic Door Holder"
    , description := "Holds fire doors open and releases on fire alarm signal. Wall or floor mounted options."
    , url := "https://www.dormakaba.com/us-en/offering/products/door-hardware/firelife-safety-devices"
    , model_numbers := ["EM200", "EM500"]
    , features := ["24V DC operation", "Manual release", "Floor or wall mount"]
    , door_types := ["commercial", "interior"]
    , fire_rated := some true
    , price_range := some "$100-300" }
  , { name := "Closer/Holder Combination"
    , description := "Combined door closer with electromagnetic hold-open function. Releases on fire alarm."
    , url := "https://www.dormakaba.com/us-en/offering/products/door-hardware/firelife-safety-devices"
    , model_numbers := ["8916", "8926"]
    , features := ["Integrated closer and holder", "Smoke detector compatible", "Fire rated"]
    , door_types := ["commercial"]
    , fire_rated := some true
    , price_range := some "$400-700" } ]

/-- PRODUCTS["simplex_locks"]. -/
def simplex_locks : List CatalogProduct :=
  [ { name := "Simplex 5000 Series Pushbutton Lock"
    , description := "Mechanical pushbutton lock requiring no power or batteries. Keyless convenience."
    , url := "https://www.dormakaba.com/us-en/offering/products/door-hardware/simplex-mechanical-pushbutton-locks"
    , model_numbers := ["5021", "5041", "5051"]
    , features := ["No batteries required", "Up to 1,000 combinations", "Key override option"]
    , door_types := ["interior", "commercial"]
    , price_range := some "$300-600" }
  , { name := "Simplex L1000 Series"
    , description := "Light-duty mechanical pushbutton lock for interior doors with privacy function."
    , url := "https://www.dormakaba.com/us-en/offering/products/door-hardware/simplex-mechanical-pushbutton-locks"
    , model_numbers := ["L1011", "L1021", "L1031"]
    , features := ["Compact design", "Passage function", "Easy code change"]
    , door_types := ["interior"]
    , price_range := some "$200-400" } ]

/-- PRODUCTS["electronic_access"]. -/
def electronic_access : List CatalogProduct :=
  [ { name := "Kaba E-Plex 5x00 Series"
    , description := "Electronic pushbutton lock with audit trail capability. Ideal for access control applications."
    , url := "https://www.dormakaba.com/us-en/offering/products/electronic-access-data"
    , model_numbers := ["E5031", "E5051", "E5071"]
    , features := ["100 user codes", "Audit trail", "Time zone scheduling", "Key override"]
    , door_types := ["interior", "commercial"]
    , price_range := some "$500-900" }
  , { name := "Kaba X-10 Standalone Electronic Lock"
    , description := "Multi-technology reader with keypad. Supports cards, fobs, and PIN codes."
    , url := "https://www.dormakaba.com/us-en/offering/products/electronic-access-data"
    , model_numbers := ["X-10"]
    , features := ["Multi-credential support", "Weatherproof option", "Audit trail"]
    , door_types := ["exterior-entry", "commercial"]
    , price_range := some "$800-1,200" } ]

/-- Dormakaba _create_recommendation (distributors.py lines 371-381). -/
def create_recommendation (product : CatalogProduct) (category : String) : ProductRecommendation :=
  { name := product.name
  , category := category
  , description := product.description
  , url := product.url
  , model_numbers := product.model_numbers
  , features := product.features
  , price_range := product.price_range
  , distributor := "Dormakaba" }

/-- Dormakaba get_recommendations (distributors.py lines 302-369).  Each of
the seven source rules appends its entries in order; the appends of the
Python loop become list concatenation.  The unused source locals `thickness`
(read, never used) and the per-entry constraint fields it never reads are
preserved on the data, not here. -/
def get_recommendations (specs : DoorSpecs) : List ProductRecommendation :=
  let door_type := specs.doorType.getD "interior"
  let hardware_list := (specs.hardware.getD []).map pyLower
  let fire_rating := specs.fireRating.getD "none"
  let has_glass := specs.hasGlass.getD false
  let width := specs.width.getD 36
  let prep_type := specs.prepType.getD "single-bore"
  let is_fire_rated : Bool := fire_rating != "none"
  let is_commercial : Bool := ["commercial", "exterior-entry"].contains door_type
  (if hardware_list.contains "doorcloser" || is_commercial then
    (if is_commercial then
      (surface_mounted.filter fun closer =>
          decide (width ≤ closer.max_door_width.getD 48)).map
        (create_recommendation · "Door Closers")
    else []) ++ (concealed.take 1).map (create_recommendation · "Door Closers")
  else [])
  ++ (if hardware_list.contains "lockset" || hardware_list.contains "handle" then
    (if prep_type == "mortise" || is_commercial then
      mortise.map (create_recommendation · "Mechanical Locks")
    else [])
    ++ cylindrical.map (create_recommendation · "Mechanical Locks")
  else [])
  ++ (if hardware_list.contains "deadbolt" then
    deadbolt.map (create_recommendation · "Mechanical Locks")
  else [])
  ++ (if door_type == "commercial" || (door_type == "exterior-entry" && decide (width ≥ 30)) then
    (if has_glass then
      narrow_stile.map (create_recommendation · "Exit Devices")
    else
      (rim.filter fun device =>
          decide (width ≥ device.min_door_width.getD 30) &&
          decide (width ≤ device.max_door_width.getD 48)).map
        (create_recommendation · "Exit Devices"))
  else [])
  ++ (if ["commercial", "exterior-entry"].contains door_type then
    low_energy_operators.map (create_recommendation · "Door Operators")
  else [])
  ++ (if is_fire_rated then
    fire_life_safety.map (create_recommendation · "Fire/Life Safety")
  else [])
  ++ (if ["commercial", "interior"].contains door_type then
    (simplex_locks.take 1).map (create_recommendation · "Keyless Entry")
    ++ (electronic_access.take 1).map (create_recommendation · "Electronic Access")
  else [])

end DormakabaDistributor

namespace SecLockDistributor

/-- SecLock vendor metadata (distributors.py lines 393-396; the unused
`phone` class attribute is omitted since `to_dict` never reads it). -/
def info : DistributorMeta :=
  { name := "SecLock"
  , website := "https://www.seclock.com"
  , logo_url := "https://www.seclock.com/logo.png" }

/-- PRODUCTS["door_closers"]["lcn"]. -/
def door_closers_lcn : List CatalogProduct :=
  [ { name := "LCN 4040XP Series Heavy Duty Door Closer"
    , description := "Extra heavy-duty cast iron door closer with adjustable backcheck, sweep speed, and latch speed. Ideal for high-traffic openings."
    , url := "https://www.seclock.com/catalog/price-books/lcn"
    , model_numbers := ["4040XP", "4040XP-RW/PA", "4040XP-CUSH", "4040XP-EDA"]
    , features := ["Cast iron construction", "Adjustable closing speeds", "Optional hold-open arm", "ADA compliant options"]
    , price_range := some "$280-$550"
    , manufacturer := some "LCN" }
  , { name := "LCN 1461 Series Surface Mounted Closer"
    , description := "Standard duty surface mounted door closer for interior openings. Smooth, quiet operation with full rack-and-pinion design."
    , url := "https://www.seclock.com/catalog/price-books/lcn"
    , model_numbers := ["1461", "1461T", "1461-H"]
    , features := ["Aluminum body", "Adjustable spring power", "Delayed action available", "Non-handed"]
    , price_range := some "$150-$280"
    , manufacturer := some "LCN" } ]

/-- PRODUCTS["door_closers"]["norton"]. -/
def door_closers_norton : List CatalogProduct :=
  [ { name := "Norton 7500 Series Door Closer"
    , description := "Architectural grade surface door closer with precision-machined components for reliable, long-lasting performance."
    , url := "https://www.seclock.com/catalog/price-books/norton"
    , model_numbers := ["7500", "7500H", "7500-689"]
    , features := ["Tri-style mounting", "Full cover included", "Adjustable closing speeds", "10-year warranty"]
    , price_range := some "$200-$400"
    , manufacturer := some "Norton" } ]

/-- PRODUCTS["door_closers"]["sargent"] (present in the catalog, not
selected by any matcher rule). -/
def door_closers_sargent : List CatalogProduct :=
  [ { name := "Sargent 1431 Series Surface Closer"
    , description := "Versatile surface-mounted closer designed for high-frequency applications with durable construction."
    , url := "https://www.seclock.com/catalog/price-books/sargent"
    , model_numbers := ["1431", "1431-CPS", "1431-H"]
    , features := ["Multi-size spring", "Optional PowerGlide arm", "Hold-open available", "Barrier-free option"]
    , price_range := some "$175-$350"
    , manufacturer := some "Sargent" } ]

/-- PRODUCTS["locks"]["schlage"]. -/
def locks_schlage : List CatalogProduct :=
  [ { name := "Schlage ND Series Cylindrical Lock"
    , description := "Heavy-duty cylindrical lever lock designed for high-traffic commercial applications. BHMA Grade 1 certified."
    , url := "https://www.seclock.com/catalog/price-books/schlage"
    , model_numbers := ["ND50PD", "ND80PD", "ND53PD", "ND70PD"]
    , features := ["Grade 1 certified", "2M cycle tested", "Vandal resistant", "UL listed for 3-hour fire doors"]
    , price_range := some "$180-$400"
    , manufacturer := some "Schlage" }
  , { name := "Schlage L Series Mortise Lock"
    , description := "Premier mortise lock with modular construction for maximum flexibility and security in institutional and commercial settings."
    , url := "https://www.seclock.com/catalog/price-books/schlage"
    , model_numbers := ["L9453", "L9456", "L9480", "L9010"]
    , features := ["BHMA Grade 1", "Modular design", "Field reversible", "Anti-friction latchbolt"]
    , price_range := some "$400-$800"
    , manufacturer := some "Schlage" }
  , { name := "Schlage ALX Series Cylindrical Lock"
    , description := "Commercial-grade cylindrical lock with improved security features and modern aesthetics for mid-range applications."
    , url := "https://www.seclock.com/catalog/price-books/schlage"
    , model_numbers := ["ALX50P", "ALX70P", "ALX80P"]
    , features := ["ANSI/BHMA Grade 2", "Snap-on rose design", "Easy rekeying", "Interchangeable core option"]
    , price_range := some "$120-$250"
    , manufacturer := some "Schlage" } ]

/-- PRODUCTS["locks"]["corbin_russwin"]. -/
def locks_corbin_russwin : List CatalogProduct :=
  [ { name := "Corbin Russwin CL3300 Series Cylindrical Lock"
    , description := "Extra heavy-duty cylindrical lever lock designed for healthcare, education, and high-abuse environments."
    , url := "https://www.seclock.com/catalog/price-books/corbin"
    , model_numbers := ["CL3351", "CL3357", "CL3355"]
    , features := ["BHMA Grade 1", "Clutching lever", "Anti-microbial option", "6-pin solid brass cylinder"]
    , price_range := some "$250-$500"
    , manufacturer := some "Corbin Russwin" }
  , { name := "Corbin Russwin ML2000 Series Mortise Lock"
    , description := "High-security mortise lock with exceptional durability for demanding commercial and institutional applications."
    , url := "https://www.seclock.com/catalog/price-books/corbin"
    , model_numbers := ["ML2010", "ML2051", "ML2055", "ML2067"]
    , features := ["BHMA Grade 1", "Modular cylinder design", "Fire rated to 3 hours", "Electrified options"]
    , price_range := some "$450-$900"
    , manufacturer := some "Corbin Russwin" } ]

/-- PRODUCTS["locks"]["sargent"] (not selected by any matcher rule). -/
def locks_sargent : List CatalogProduct :=
  [ { name := "Sargent 10 Line Cylindrical Lock"
    , description := "Standard duty bored lock for commercial applications with reliable performance and variety of functions."
    , url := "https://www.seclock.com/catalog/price-books/sargent"
    , model_numbers := ["10U15", "10U65", "10U94"]
    , features := ["ANSI Grade 1", "6-pin cylinder", "ADA compliant levers", "UL fire rated"]
    , price_range := some "$200-$380"
    , manufacturer := some "Sargent" }
  , { name := "Sargent 8200 Series Mortise Lock"
    , description := "Heavy-duty mortise lock engineered for high-traffic commercial and institutional environments."
    , url := "https://www.seclock.com/catalog/price-books/sargent"
    , model_numbers := ["8204", "8205", "8265", "8270"]
    , features := ["BHMA Grade 1", "Sectional trim", "Anti-friction bolt", "Optional security rose"]
    , price_range := some "$400-$750"
    , manufacturer := some "Sargent" } ]

/-- PRODUCTS["locks"]["yale"] (not selected by any matcher rule). -/
def locks_yale : List CatalogProduct :=
  [ { name := "Yale 8800FL Series Mortise Lock"
    , description := "Premium mortise lock with electromechanical options for access control integration."
    , url := "https://www.seclock.com/catalog/price-books/yale"
    , model_numbers := ["8802FL", "8822FL", "8891FL"]
    , features := ["BHMA Grade 1", "Fail-safe/fail-secure options", "Monitoring switches", "Request-to-exit"]
    , price_range := some "$500-$1200"
    , manufacturer := some "Yale" } ]

/-- PRODUCTS["exit_devices"]["von_duprin"]. -/
def exit_devices_von_duprin : List CatalogProduct :=
  [ { name := "Von Duprin 99 Series Exit Device"
    , description := "Industry-leading rim exit device for heavy-duty commercial applications. Smooth, quiet operation with maximum security."
    , url := "https://www.seclock.com/catalog/price-books/vonduprin"
    , model_numbers := ["99L", "99L-06", "99NL", "99EO"]
    , features := ["Hex-key dogging", "LBR option", "UL listed", "Fire exit hardware"]
    , price_range := some "$450-$900"
    , manufacturer := some "Von Duprin" }
  , { name := "Von Duprin 98/99 Series Vertical Rod"
    , description := "Heavy-duty vertical rod exit device for double doors requiring top and bottom latching."
    , url := "https://www.seclock.com/catalog/price-books/vonduprin"
    , model_numbers := ["9827", "9927", "9847", "9947"]
    , features := ["Less bottom rod option", "Concealed vertical rod", "Fire rated", "Electric options"]
    , price_range := some "$800-$1500"
    , manufacturer := some "Von Duprin" } ]

/-- PRODUCTS["exit_devices"]["falcon"]. -/
def exit_devices_falcon : List CatalogProduct :=
  [ { name := "Falcon 24/25 Series Exit Device"
    , description := "Heavy-duty wide stile exit device with smooth touchbar operation and durable construction."
    , url := "https://www.seclock.com/catalog/price-books/falcon"
    , model_numbers := ["24-R-EO", "25-R-EO", "24-V-EO"]
    , features := ["Non-handed", "UL listed", "Modular design", "Electric latch retraction"]
    , price_range := some "$380-$750"
    , manufacturer := some "Falcon" } ]

/-- PRODUCTS["exit_devices"]["sargent"] (not selected by any matcher rule). -/
def exit_devices_sargent : List CatalogProduct :=
  [ { name := "Sargent 80 Series Exit Device"
    , description := "Premium exit device with patented Powerglide mechanism for smooth, quiet operation under heavy use."
    , url := "https://www.seclock.com/catalog/price-books/sargent"
    , model_numbers := ["8804", "8810", "8813", "8888"]
    , features := ["Powerglide mechanism", "Modular design", "Delayed egress option", "Heavy-duty construction"]
    , price_range := some "$500-$1000"
    , manufacturer := some "Sargent" } ]

/-- PRODUCTS["exit_devices"]["detex"] (not selected by any matcher rule). -/
def exit_devices_detex : List CatalogProduct :=
  [ { name := "Detex ECL-230X Exit Control Lock"
    , description := "Battery-powered alarmed exit device for emergency exits that require security monitoring."
    , url := "https://www.seclock.com/catalog/price-books/detex"
    , model_numbers := ["ECL-230X", "ECL-230X-W"]
    , features := ["95dB alarm", "Battery powered", "LED status indicator", "Delayed egress option"]
    , price_range := some "$350-$600"
    , manufacturer := some "Detex" } ]

/-- PRODUCTS["hinges"]["mckinney"]. -/
def hinges_mckinney : List CatalogProduct :=
  [ { name := "McKinney TA2714 Heavy Weight Hinge"
    , description := "Five-knuckle architectural hinge designed for heavy doors in high-frequency applications."
    , url := "https://www.seclock.com/catalog/price-books/mckinney"
    , model_numbers := ["TA2714", "TA2714-4.5x4.5", "TA2714-5x5"]
    , features := ["Heavy weight bearing", "Non-removable pin option", "Ball bearing", "NRP available"]
    , price_range := some "$25-$60 each"
    , manufacturer := some "McKinney" }
  , { name := "McKinney T4A3786 Electric Hinge"
    , description := "Electrified hinge for transferring power to door-mounted hardware without surface wiring."
    , url := "https://www.seclock.com/catalog/price-books/mckinney"
    , model_numbers := ["T4A3786", "T4A3386"]
    , features := ["Concealed wiring", "Multiple wire options", "Fire rated", "Ball bearing"]
    , price_range := some "$120-$250 each"
    , manufacturer := some "McKinney" } ]

/-- PRODUCTS["hinges"]["hager"]. -/
def hinges_hager : List CatalogProduct :=
  [ { name := "Hager BB1279 Full Mortise Hinge"
    , description := "Standard weight ball bearing hinge for commercial interior doors with high cycle life."
    , url := "https://www.seclock.com/catalog/price-books/hager"
    , model_numbers := ["BB1279", "BB1279-4.5x4.5"]
    , features := ["Ball bearing", "Template production", "Multiple finishes", "Lifetime warranty"]
    , price_range := some "$15-$40 each"
    , manufacturer := some "Hager" } ]

/-- PRODUCTS["hinges"]["ives"] (not selected by any matcher rule). -/
def hinges_ives : List CatalogProduct :=
  [ { name := "Ives 5BB1 Ball Bearing Hinge"
    , description := "Five-knuckle ball bearing hinge for standard commercial applications with reliable performance."
    , url := "https://www.seclock.com/catalog/price-books/ives"
    , model_numbers := ["5BB1", "5BB1-4.5x4.5", "5BB1HW"]
    , features := ["Ball bearing", "Template drilled", "Steel or stainless", "NRP option"]
    , price_range := some "$18-$45 each"
    , manufacturer := some "Ives" } ]

/-- PRODUCTS["electronic_access"]["hes"]. -/
def electronic_access_hes : List CatalogProduct :=
  [ { name := "HES 1006 Electric Strike"
    , description := "Heavy-duty electric strike for cylindrical locksets with adjustable keeper for precise fit."
    , url := "https://www.seclock.com/catalog/price-books/hes"
    , model_numbers := ["1006", "1006-12/24D-630", "1006CLB"]
    , features := ["Fail-safe/fail-secure", "Adjustable keeper", "Dual voltage", "Latchbolt monitor"]
    , price_range := some "$150-$350"
    , manufacturer := some "HES" }
  , { name := "HES 9600 Series Electric Strike"
    , description := "Surface-mounted electric strike for rim exit devices with rugged construction."
    , url := "https://www.seclock.com/catalog/price-books/hes"
    , model_numbers := ["9600", "9600-12/24D-630"]
    , features := ["Surface mounted", "1500 lb holding force", "Dual voltage", "Fire rated"]
    , price_range := some "$200-$400"
    , manufacturer := some "HES" } ]

/-- PRODUCTS["electronic_access"]["securitron"]. -/
def electronic_access_securitron : List CatalogProduct :=
  [ { name := "Securitron M62 Magnalock"
    , description := "Heavy-duty electromagnetic lock with 1200 lb holding force for high-security applications."
    , url := "https://www.seclock.com/catalog/price-books/securitron"
    , model_numbers := ["M62", "M62D", "M62DGB"]
    , features := ["1200 lb holding force", "LED status indicator", "Bond sensor option", "UL294 listed"]
    , price_range := some "$250-$450"
    , manufacturer := some "Securitron" } ]

/-- PRODUCTS["electronic_access"]["alarm_lock"]. -/
def electronic_access_alarm_lock : List CatalogProduct :=
  [ { name := "Alarm Lock Trilogy T2 Digital Lock"
    , description := "Standalone digital keypad lock with audit trail and multiple user codes."
    , url := "https://www.seclock.com/catalog/price-books/alarmlock"
    , model_numbers := ["DL2700", "DL2800", "DL3000"]
    , features := ["100 user codes", "Audit trail", "Weatherproof option", "BHMA Grade 1"]
    , price_range := some "$400-$700"
    , manufacturer := some "Alarm Lock" } ]

/-- PRODUCTS["electronic_access"]["schlage_electronics"]. -/
def electronic_access_schlage_electronics : List CatalogProduct :=
  [ { name := "Schlage CO-100 Cylindrical Electronic Lock"
    , description := "Battery-powered standalone access control lock with keypad or card reader options."
    , url := "https://www.seclock.com/catalog/price-books/schlageele"
    , model_numbers := ["CO-100", "CO-200", "CO-250"]
    , features := ["Standalone or networked", "Up to 500 users", "Audit trail", "BHMA Grade 1"]
    , price_range := some "$500-$1000"
    , manufacturer := some "Schlage Electronics" } ]

/-- PRODUCTS["deadbolts"]["schlage"]. -/
def deadbolts_schlage : List CatalogProduct :=
  [ { name := "Schlage B Series Commercial Deadbolt"
    , description := "Heavy-duty commercial deadbolt with Grade 1 security for maximum protection."
    , url := "https://www.seclock.com/catalog/price-books/schlage"
    , model_numbers := ["B560P", "B562P", "B563P", "B580P"]
    , features := ["ANSI Grade 1", "1\" throw bolt", "Anti-saw pins", "Hardened steel insert"]
    , price_range := some "$100-$250"
    , manufacturer := some "Schlage" } ]

/-- PRODUCTS["deadbolts"]["medeco"]. -/
def deadbolts_medeco : List CatalogProduct :=
  [ { name := "Medeco Maxum Commercial Deadbolt"
    , description := "High-security deadbolt with patented key control and pick-resistant design."
    , url := "https://www.seclock.com/catalog/price-books/medeco"
    , model_numbers := ["11-0102", "11-0202", "11-0602"]
    , features := ["UL437 listed", "Bump resistant", "Drill resistant", "Patented key control"]
    , price_range := some "$350-$600"
    , manufacturer := some "Medeco" } ]

/-- PRODUCTS["door_accessories"]["don_jo"]. -/
def door_accessories_don_jo : List CatalogProduct :=
  [ { name := "Don-Jo Wrap Around Plate"
    , description := "Door reinforcement plate to protect and strengthen lock installation area."
    , url := "https://www.seclock.com/catalog/price-books/donjo"
    , model_numbers := ["504-CW", "504-S-CW", "942-CW"]
    , features := ["Steel construction", "Multiple finishes", "Easy installation", "Custom sizes"]
    , price_range := some "$25-$80"
    , manufacturer := some "Don-Jo" }
  , { name := "Don-Jo Latch Protector"
    , description := "Security plate to prevent forced entry through latch manipulation."
    , url := "https://www.seclock.com/catalog/price-books/donjo"
    , model_numbers := ["LP-107", "LP-207", "OSLP-107"]
    , features := ["14 gauge steel", "Pin and barrel hinge protection", "Multiple sizes", "Stainless available"]
    , price_range := some "$20-$60"
    , manufacturer := some "Don-Jo" } ]

/-- PRODUCTS["door_accessories"]["rockwood"]. -/
def door_accessories_rockwood : List CatalogProduct :=
  [ { name := "Rockwood 85 Push/Pull Plate"
    , description := "Architectural push and pull plates for commercial door aesthetics and protection."
    , url := "https://www.seclock.com/catalog/price-books/rockwood"
    , model_numbers := ["85", "85-4x16", "85-6x16"]
    , features := ["Multiple materials", "Custom sizing", "Beveled edges", "Fastener concealment"]
    , price_range := some "$40-$150"
    , manufacturer := some "Rockwood" }
  , { name := "Rockwood RM3 Door Stop"
    , description := "Heavy-duty floor-mounted door stop with solid construction."
    , url := "https://www.seclock.com/catalog/price-books/rockwood"
    , model_numbers := ["RM3", "RM3-HT", "RM2"]
    , features := ["Cast brass/bronze", "Concealed mounting", "Rubber bumper", "Multiple finishes"]
    , price_range := some "$15-$50"
    , manufacturer := some "Rockwood" } ]

/-- PRODUCTS["door_accessories"]["ives"] (not selected by any matcher rule). -/
def door_accessories_ives : List CatalogProduct :=
  [ { name := "Ives FB61 Flush Bolt"
    , description := "Automatic flush bolt for securing inactive leaf of double doors."
    , url := "https://www.seclock.com/catalog/price-books/ives"
    , model_numbers := ["FB61", "FB61P", "FB61T"]
    , features := ["Automatic operation", "UL listed", "Fire rated", "Concealed design"]
    , price_range := some "$80-$200"
    , manufacturer := some "Ives" } ]

/-- PRODUCTS["fire_safety"]["lcn"]. -/
def fire_safety_lcn : List CatalogProduct :=
  [ { name := "LCN 4640 Series Electromagnetic Holder"
    , description := "Fire-rated electromagnetic door holder with wall or floor mounting options."
    , url := "https://www.seclock.com/catalog/price-books/lcn"
    , model_numbers := ["4640", "4640-3049"]
    , features := ["UL/cUL listed", "25-35 lb holding force", "Wall or floor mount", "Releases on alarm"]
    , price_range := some "$100-$200"
    , manufacturer := some "LCN" } ]

/-- PRODUCTS["fire_safety"]["norton"] (not selected by any matcher rule). -/
def fire_safety_norton : List CatalogProduct :=
  [ { name := "Norton 6000 Series Fire Door Holder"
    , description := "Electromagnetic hold-open device for fire door applications with reliable release."
    , url := "https://www.seclock.com/catalog/price-books/norton"
    , model_numbers := ["6000", "6000-689"]
    , features := ["UL listed", "Tie-in to fire alarm", "Adjustable holding force", "Surface mount"]
    , price_range := some "$90-$180"
    , manufacturer := some "Norton" } ]

/-- PRODUCTS["weatherstripping"]["pemko"]. -/
def weatherstripping_pemko : List CatalogProduct :=
  [ { name := "Pemko S88 Door Bottom Seal"
    , description := "Heavy-duty aluminum door bottom with silicone seal for weather and sound protection."
    , url := "https://www.seclock.com/catalog/price-books/pemko"
    , model_numbers := ["S88D", "S88BL", "S88SL"]
    , features := ["Silicone insert", "Aluminum housing", "Easy installation", "Sound reduction"]
    , price_range := some "$30-$80"
    , manufacturer := some "Pemko" }
  , { name := "Pemko 303 Threshold"
    , description := "Aluminum saddle threshold for commercial door openings."
    , url := "https://www.seclock.com/catalog/price-books/pemko"
    , model_numbers := ["303AS", "303AV", "303ANB"]
    , features := ["Aluminum construction", "ADA compliant heights", "Thermal break option", "Multiple widths"]
    , price_range := some "$25-$100"
    , manufacturer := some "Pemko" } ]

/-- PRODUCTS["weatherstripping"]["ngp"]. -/
def weatherstripping_ngp : List CatalogProduct :=
  [ { name := "NGP Door Smoke Seal"
    , description := "Intumescent smoke seal for fire-rated door assemblies."
    , url := "https://www.seclock.com/catalog/price-books/ngp"
    , model_numbers := ["970", "970N"]
    , features := ["UL listed", "Expands with heat", "Smoke and draft seal", "Meets positive pressure"]
    , price_range := some "$20-$60"
    , manufacturer := some "NGP" } ]

/-- PRODUCTS["auto_operators"]["lcn"] (not selected by any matcher rule). -/
def auto_operators_lcn : List CatalogProduct :=
  [ { name := "LCN 4640 SENIOR SWING Low Energy Operator"
    , description := "ADA-compliant low energy automatic door operator for accessibility applications."
    , url := "https://www.seclock.com/catalog/price-books/lcn"
    , model_numbers := ["4640-3049T", "4640-3077T"]
    , features := ["ADA compliant", "Low energy operation", "Push button activation", "Safety sensors"]
    , price_range := some "$1500-$2500"
    , manufacturer := some "LCN" } ]

/-- PRODUCTS["auto_operators"]["norton"]. -/
def auto_operators_norton : List CatalogProduct :=
  [ { name := "Norton 5600 ADAEZ PRO Operator"
    , description := "Integrated automatic door operator designed for ADA accessibility retrofits."
    , url := "https://www.seclock.com/catalog/price-books/norton"
    , model_numbers := ["5600", "5610", "5620"]
    , features := ["Easy retrofit", "No header needed", "ADA compliant", "Power open/close"]
    , price_range := some "$1800-$3000"
    , manufacturer := some "Norton" } ]

/-- PRODUCTS["cylinders"]["medeco"]. -/
def cylinders_medeco : List CatalogProduct :=
  [ { name := "Medeco M3 High Security Cylinder"
    , description := "Patented high-security cylinder with anti-pick, anti-drill, and bump-resistant features."
    , url := "https://www.seclock.com/catalog/price-books/medeco"
    , model_numbers := ["20-0100", "20-0200", "20-0300"]
    , features := ["UL437 listed", "Key control", "Bump resistant", "Retrofit compatible"]
    , price_range := some "$100-$250"
    , manufacturer := some "Medeco" } ]

/-- PRODUCTS["cylinders"]["best"]. -/
def cylinders_best : List CatalogProduct :=
  [ { name := "BEST 1E Series Interchangeable Core"
    , description := "Small format interchangeable core cylinder for easy rekeying without removing hardware."
    , url := "https://www.seclock.com/catalog/price-books/best"
    , model_numbers := ["1E74", "1E76", "1E7"]
    , features := ["Tool-free removal", "6 or 7 pin options", "Master keying", "High security options"]
    , price_range := some "$40-$120"
    , manufacturer := some "BEST" } ]

/-- SecLock _create_recommendation (distributors.py lines 995-1005): the
distributor label composes the vendor name with the entry's manufacturer. -/
def create_recommendation (product : CatalogProduct) (category : String) : ProductRecommendation :=
  { name := product.name
  , category := category
  , description := product.description
  , url := product.url
  , model_numbers := product.model_numbers
  , features := product.features
  , price_range := product.price_range
  , distributor := "SecLock (" ++ product.manufacturer.getD "" ++ ")" }

/-- SecLock get_recommendations (distributors.py lines 875-993).  The
source reads `width`/`height` through `float(...)`; here the specification
is already numeric, so the reads are plain defaults (the coercion behavior
itself is modelled separately on raw specifications below).  The local
`hinge_count = int(specs.get('hingeCount', 3))` is read and never used, and
is therefore not reproduced.  Note the source reads `hardware` verbatim,
with no case folding. -/
def get_recommendations (specs : DoorSpecs) : List ProductRecommendation :=
  let door_type := specs.doorType.getD "interior"
  let material := specs.material.getD "wood"
  let has_glass := specs.hasGlass.getD false
  let fire_rating := specs.fireRating.getD "none"
  let is_fire_rated : Bool := fire_rating != "none"
  let hardware_list := specs.hardware.getD []
  let width := specs.width.getD 36
  let height := specs.height.getD 80
  let is_heavy : Bool :=
    decide (width > 42) || decide (height > 84) || ["steel", "fiberglass"].contains material
  let is_commercial : Bool := ["commercial", "exterior-entry"].contains door_type
  let _ := has_glass
  (if is_commercial || is_fire_rated then
    (if is_heavy then
      (door_closers_lcn.take 1).map (create_recommendation · "Door Closers")
    else
      (door_closers_norton.take 1).map (create_recommendation · "Door Closers"))
  else [])
  ++ (if hardware_list.contains "lockset" || hardware_list.contains "deadbolt" || is_commercial then
    (if is_commercial then
      (locks_schlage.take 1).map (create_recommendation · "Commercial Locks")
      ++ (locks_corbin_russwin.take 1).map (create_recommendation · "Commercial Locks")
    else
      ((locks_schlage.drop 2).take 1).map (create_recommendation · "Cylindrical Locks"))
  else [])
  ++ (if hardware_list.contains "deadbolt" then
    (if specs.prepType == some "high-security" then
      deadbolts_medeco.map (create_recommendation · "High-Security Deadbolts")
    else
      deadbolts_schlage.map (create_recommendation · "Commercial Deadbolts"))
  else [])
  ++ (if ["commercial", "exterior-entry"].contains door_type || hardware_list.contains "panic" then
    (exit_devices_von_duprin.take 1).map (create_recommendation · "Exit Devices")
    ++ (exit_devices_falcon.take 1).map (create_recommendation · "Exit Devices")
  else [])
  ++ (if is_heavy || decide (height > 84) then
    (hinges_mckinney.take 1).map (create_recommendation · "Hinges")
  else
    (hinges_hager.take 1).map (create_recommendation · "Hinges"))
  ++ (if hardware_list.contains "electric_strike" || hardware_list.contains "maglock" then
    ((hinges_mckinney.drop 1).take 1).map (create_recommendation · "Electric Hinges")
  else [])
  ++ (if hardware_list.contains "electric_strike" then
    (electronic_access_hes.take 1).map (create_recommendation · "Electric Strikes")
  else [])
  ++ (if hardware_list.contains "maglock" then
    electronic_access_securitron.map (create_recommendation · "Electromagnetic Locks")
  else [])
  ++ (if hardware_list.contains "keypad" then
    electronic_access_alarm_lock.map (create_recommendation · "Electronic Keypad Locks")
    ++ electronic_access_schlage_electronics.map (create_recommendation · "Electronic Access Control")
  else [])
  ++ (if is_commercial then
    (door_accessories_don_jo.take 1).map (create_recommendation · "Door Protection")
    ++ (door_accessories_rockwood.take 1).map (create_recommendation · "Push/Pull Plates")
  else [])
  ++ (if is_fire_rated then
    fire_safety_lcn.map (create_recommendation · "Fire Door Hardware")
    ++ weatherstripping_ngp.map (create_recommendation · "Fire Door Seals")
  else [])
  ++ (if ["exterior-entry", "exterior-patio"].contains door_type then
    weatherstripping_pemko.map (create_recommendation · "Weatherstripping")
  else [])
  ++ (if hardware_list.contains "auto_operator" then
    auto_operators_norton.map (create_recommendation · "Automatic Door Operators")
  else [])
  ++ (if specs.prepType == some "high-security" || hardware_list.contains "ic_core" then
    cylinders_medeco.map (create_recommendation · "High Security Cylinders")
    ++ cylinders_best.map (create_recommendation · "Interchangeable Cores")
  else [])

end SecLockDistributor

namespace AssaAbloyDSSDistributor

/-- ASSA ABLOY DSS vendor metadata (distributors.py lines 1018-1020; the
unused `phone` class attribute is omitted since `to_dict` never reads it). -/
def info : DistributorMeta :=
  { name := "ASSA ABLOY Door Security Solutions"
  , website := "https://www.assaabloydss.com"
  , logo_url := "https://www.assaabloydss.com/content/dam/assa-abloy/americas/dss/assa-abloy-dss/logos/assa-abloy-logo.svg" }

/-- PRODUCTS["hollow_metal_doors"]["ceco"]. -/
def hollow_metal_doors_ceco : List CatalogProduct :=
  [ { name := "Ceco Standard Steel Door"
    , description := "Strong and secure steel doors designed to meet a full range of safety, security, and aesthetic requirements. Available in various gauges and configurations."
    , url := "https://www.cecodoor.com/en/products/"
    , model_numbers := ["Series 18", "Series 16", "Series 14"]
    , features := ["18, 16, or 14 gauge steel", "Flush or embossed face", "Fire rated options", "Multiple core options"]
    , price_range := some "$350-$800"
    , manufacturer := some "Ceco Door" }
  , { name := "Ceco Fire-Rated Steel Door"
    , description := "UL labeled fire-rated hollow metal doors for commercial and industrial applications requiring fire protection up to 3 hours."
    , url := "https://www.cecodoor.com/en/products/"
    , model_numbers := ["FR-20", "FR-45", "FR-60", "FR-90", "FR-180"]
    , features := ["20-minute to 3-hour ratings", "Positive pressure tested", "Temperature rise options", "Smoke and draft control"]
    , price_range := some "$500-$1,500"
    , manufacturer := some "Ceco Door" } ]

/-- PRODUCTS["hollow_metal_doors"]["curries"]. -/
def hollow_metal_doors_curries : List CatalogProduct :=
  [ { name := "Curries Commercial Steel Door"
    , description := "Full line of custom and standard hollow metal doors for new and retrofit construction projects. Ideal for healthcare, commercial, and educational markets."
    , url := "https://www.curries.com/en/products/"
    , model_numbers := ["707", "747", "757", "767"]
    , features := ["Custom sizes available", "Multiple gauge options", "Insulated core options", "Sound dampening"]
    , price_range := some "$400-$900"
    , manufacturer := some "Curries" }
  , { name := "Curries Stile & Rail Door"
    , description := "Architectural stile and rail doors with glass lite options for aesthetically demanding applications."
    , url := "https://www.curries.com/en/products/"
    , model_numbers := ["SR-1", "SR-2", "SR-3"]
    , features := ["Glass lite options", "Architectural finishes", "Vision panel configurations", "ADA compliant"]
    , price_range := some "$600-$1,400"
    , manufacturer := some "Curries" } ]

/-- PRODUCTS["hollow_metal_doors"]["baron"] (not selected by any rule). -/
def hollow_metal_doors_baron : List CatalogProduct :=
  [ { name := "Baron Embossed Steel Door"
    , description := "Embossed or standard hollow metal doors in 14-, 16-, 18- and 20-gauge options for commercial applications."
    , url := "https://www.baronmetal.com/en/products/"
    , model_numbers := ["BE-18", "BE-16", "BE-14", "BS-18"]
    , features := ["Embossed or smooth face", "Multiple gauges", "Honeycomb or polystyrene core", "Primed finish"]
    , price_range := some "$300-$700"
    , manufacturer := some "Baron" } ]

/-- PRODUCTS["hollow_metal_doors"]["rite_door"]. -/
def hollow_metal_doors_rite_door : List CatalogProduct :=
  [ { name := "RITE Door Designer Series"
    , description := "Unique aesthetic door finishes and designer options with preassembled hardware devices for upscale commercial applications."
    , url := "https://www.ritedoor.com/en/"
    , model_numbers := ["RD-100", "RD-200", "RD-300"]
    , features := ["Wood grain finishes", "Stainless steel options", "Factory-installed hardware", "Custom colors"]
    , price_range := some "$800-$2,000"
    , manufacturer := some "RITE Door" } ]

/-- PRODUCTS["hollow_metal_frames"]["ceco"]. -/
def hollow_metal_frames_ceco : List CatalogProduct :=
  [ { name := "Ceco Welded Frame"
    , description := "Heavy-duty welded hollow metal frames for masonry or drywall construction. Superior strength for commercial applications."
    , url := "https://www.cecodoor.com/en/products/"
    , model_numbers := ["WF-16", "WF-14", "WF-12"]
    , features := ["Welded corners", "16, 14, or 12 gauge", "Masonry or drywall anchors", "Multiple throat sizes"]
    , price_range := some "$200-$500"
    , manufacturer := some "Ceco Door" }
  , { name := "Ceco Knock-Down Frame"
    , description := "Field-assembled knocked down frames for easy shipping and installation in retrofit applications."
    , url := "https://www.cecodoor.com/en/products/"
    , model_numbers := ["KD-16", "KD-14"]
    , features := ["Easy field assembly", "No welding required", "Adjustable for out-of-square openings", "Standard or fire rated"]
    , price_range := some "$150-$350"
    , manufacturer := some "Ceco Door" } ]

/-- PRODUCTS["hollow_metal_frames"]["curries"] (not selected by any rule). -/
def hollow_metal_frames_curries : List CatalogProduct :=
  [ { name := "Curries Drywall Frame"
    , description := "Hollow metal frames designed specifically for drywall construction with concealed anchoring systems."
    , url := "https://www.curries.com/en/products/"
    , model_numbers := ["DW-S", "DW-D", "DW-B"]
    , features := ["Drywall anchor system", "Single or double rabbet", "Adjustable base anchors", "Fire rated options"]
    , price_range := some "$175-$400"
    , manufacturer := some "Curries" } ]

/-- PRODUCTS["hollow_metal_frames"]["baron"] (not selected by any rule). -/
def hollow_metal_frames_baron : List CatalogProduct :=
  [ { name := "Baron Masonry Frame"
    , description := "14-, 16- and 18-gauge masonry or drywall frames for standard commercial door openings."
    , url := "https://www.baronmetal.com/en/products/"
    , model_numbers := ["MF-16", "MF-14", "MF-18"]
    , features := ["Masonry anchors included", "Multiple gauges", "Standard throat sizes", "Primed finish"]
    , price_range := some "$150-$350"
    , manufacturer := some "Baron" } ]

/-- PRODUCTS["specialty_doors"]["acoustical"]. -/
def specialty_acoustical : List CatalogProduct :=
  [ { name := "Acoustical Door Opening - STC Rated"
    , description := "STC-rated doors for offices, schools, hotels, and anywhere noise transference could be problematic. Available in various STC ratings."
    , url := "https://www.assaabloydss.com/en/products/doors-and-frames/specialty-doors/product-details.aehpdp-acoustical-openings-dss_assa_abloy_dss_99370"
    , model_numbers := ["STC-35", "STC-40", "STC-45", "STC-50"]
    , features := ["STC ratings 35-55", "Gasketed perimeter", "Automatic door bottom", "Vision panel options"]
    , price_range := some "$1,500-$4,000"
    , manufacturer := some "ASSA ABLOY DSS" } ]

/-- PRODUCTS["specialty_doors"]["bullet_resistant"]. -/
def specialty_bullet_resistant : List CatalogProduct :=
  [ { name := "Bullet Resistant Door Opening"
    , description := "Multiple levels of protection against ballistic threats, tested and certified to strict UL 752 standards."
    , url := "https://www.assaabloydss.com/en/products/doors-and-frames/specialty-doors/product-details.aehpdp-bullet-resistant-openings-dss_assa_abloy_dss_99369"
    , model_numbers := ["BR-1", "BR-3", "BR-4", "BR-8"]
    , features := ["UL 752 Levels 1-8", "Steel and composite construction", "Matching bullet-resistant frames", "Vision panel options"]
    , price_range := some "$3,000-$15,000"
    , manufacturer := some "ASSA ABLOY DSS" } ]

/-- PRODUCTS["specialty_doors"]["blast_resistant"]. -/
def specialty_blast_resistant : List CatalogProduct :=
  [ { name := "Blast Resistant Door Opening"
    , description := "Protection against explosions and excessive force. Designed for critical infrastructure and government facilities."
    , url := "https://www.assaabloydss.com/en/products/doors-and-frames/specialty-doors/product-details.aehpdp-blast-resistant-openings-dss_assa_abloy_dss_227316"
    , model_numbers := ["BR-GSA", "BR-DOD", "BR-ISC"]
    , features := ["GSA/ISC compliant", "DoD certified", "Blast tested", "Hazard mitigation"]
    , price_range := some "$5,000-$25,000"
    , manufacturer := some "ASSA ABLOY DSS" } ]

/-- PRODUCTS["specialty_doors"]["hurricane_resistant"]. -/
def specialty_hurricane_resistant : List CatalogProduct :=
  [ { name := "Hurricane Resistant Door Opening"
    , description := "Essential in storm zones, ensuring safety and property protection. Florida Building Code and Miami-Dade approved."
    , url := "https://www.assaabloydss.com/en/products/doors-and-frames/specialty-doors/product-details.aehpdp-hurricane-resistant-openings-dss_assa_abloy_dss_227321"
    , model_numbers := ["HC-S", "HC-M", "HC-L"]
    , features := ["Florida Building Code approved", "Miami-Dade NOA", "Large/small missile impact", "HVHZ rated"]
    , price_range := some "$2,000-$8,000"
    , manufacturer := some "ASSA ABLOY DSS" }
  , { name := "StormPro Hurricane and Tornado Resistant Opening"
    , description := "Designed to protect against missile penetration from wind-borne debris for hurricane and tornado shelters."
    , url := "https://www.assaabloydss.com/en/products/doors-and-frames/specialty-doors/product-details.aehpdp-stormpro-hurricane-and-tornado-resistant-openings-dss_assa_abloy_dss_824814"
    , model_numbers := ["SP-FEMA", "SP-ICC"]
    , features := ["FEMA P-361 compliant", "ICC 500 certified", "EF5 tornado rated", "Shelter door approved"]
    , price_range := some "$4,000-$12,000"
    , manufacturer := some "ASSA ABLOY DSS" } ]

/-- PRODUCTS["specialty_doors"]["attack_resistant"]. -/
def specialty_attack_resistant : List CatalogProduct :=
  [ { name := "Attack Resistant Door Opening"
    , description := "Forced entry resistant openings that prioritize safety and security with cutting-edge materials."
    , url := "https://www.assaabloydss.com/en/products/doors-and-frames/specialty-doors/product-details.aehpdp-attack-resistant-openings-dss_assa_abloy_dss_227315"
    , model_numbers := ["FE-5", "FE-10", "FE-15"]
    , features := ["Forced entry rated", "5-15 minute attack ratings", "Reinforced construction", "High-security hardware"]
    , price_range := some "$2,500-$10,000"
    , manufacturer := some "ASSA ABLOY DSS" }
  , { name := "Forced Entry Bullet Resistant Opening"
    , description := "Combines ballistic and forced-entry resistance with cutting-edge materials for unparalleled protection."
    , url := "https://www.assaabloydss.com/en/products/doors-and-frames/specialty-doors/product-details.aehpdp-forced-entry-bullet-resistant-openings-dss_assa_abloy_dss_227320"
    , model_numbers := ["FEBR-3", "FEBR-5", "FEBR-8"]
    , features := ["Combined FE + BR rating", "UL 752 ballistic", "ASTM forced entry", "Embassy-grade protection"]
    , price_range := some "$8,000-$30,000"
    , manufacturer := some "ASSA ABLOY DSS" } ]

/-- PRODUCTS["specialty_doors"]["flood_resistant"]. -/
def specialty_flood_resistant : List CatalogProduct :=
  [ { name := "Flood Resistant Door Opening"
    , description := "Specially designed doorways that keep out water up to a depth of 36 inches for flood-prone facilities."
    , url := "https://www.assaabloydss.com/en/products/doors-and-frames/specialty-doors/product-details.aehpdp-flood-resistant-openings-dss_assa_abloy_dss_227319"
    , model_numbers := ["FL-24", "FL-36"]
    , features := ["24\" or 36\" water depth", "FM Approved", "Watertight gaskets", "Manual or automatic"]
    , price_range := some "$3,000-$8,000"
    , manufacturer := some "ASSA ABLOY DSS" } ]

/-- PRODUCTS["specialty_doors"]["lead_lined"]. -/
def specialty_lead_lined : List CatalogProduct :=
  [ { name := "Lead-Lined Door Opening"
    , description := "High-quality lead-lined door openings for radiation protection in medical and industrial applications."
    , url := "https://www.assaabloydss.com/en/products/doors-and-frames/specialty-doors/product-details.aehpdp-lead-lined-openings-dss_assa_abloy_dss_227322"
    , model_numbers := ["LL-1/16", "LL-1/8", "LL-1/4"]
    , features := ["1/16\" to 1/2\" lead equivalent", "Radiation shielding", "Healthcare compliant", "X-ray room rated"]
    , price_range := some "$2,000-$6,000"
    , manufacturer := some "ASSA ABLOY DSS" } ]

/-- PRODUCTS["specialty_doors"]["stainless_steel"]. -/
def specialty_stainless_steel : List CatalogProduct :=
  [ { name := "Stainless Steel Door Opening"
    , description := "Sleek stainless steel doors and frames offering corrosion resistance and enhanced aesthetic appeal."
    , url := "https://www.assaabloydss.com/en/products/doors-and-frames/specialty-doors/product-details.aehpdp-stainless-steel-openings-dss_assa_abloy_dss_223738"
    , model_numbers := ["SS-304", "SS-316"]
    , features := ["304 or 316 stainless", "Corrosion resistant", "Hygienic", "Multiple finishes"]
    , price_range := some "$1,500-$4,500"
    , manufacturer := some "ASSA ABLOY DSS" } ]

/-- PRODUCTS["specialty_doors"]["emi_rfi_shielding"]. -/
def specialty_emi_rfi_shielding : List CatalogProduct :=
  [ { name := "EMI-RFI/STC Shielding Door Assembly"
    , description := "Protects sensitive communications and electronics from electromagnetic interference. For data centers, SCIF, and military applications."
    , url := "https://www.assaabloydss.com/en/products/doors-and-frames/specialty-doors/product-details.aehpdp-emi-rfistc-shielding-assembly-with-split-frame-and-adjustable-seals-dss_assa_abloy_dss_959145"
    , model_numbers := ["EMI-40", "EMI-60", "EMI-100"]
    , features := ["40-100 dB shielding", "TEMPEST compliant", "SCIF requirements", "Combined STC rating"]
    , price_range := some "$8,000-$25,000"
    , manufacturer := some "ASSA ABLOY DSS" } ]

/-- PRODUCTS["specialty_doors"]["water_resistant"] (not selected by any
rule: no specialtyType or flag in the matcher maps to it). -/
def specialty_water_resistant : List CatalogProduct :=
  [ { name := "Water Resistant Door Opening"
    , description := "Sanitary and watertight solution for clean rooms, laboratories, or chemical storage areas."
    , url := "https://www.assaabloydss.com/en/products/doors-and-frames/specialty-doors/product-details.aehpdp-water-resistant-openings-dss_assa_abloy_dss_227324"
    , model_numbers := ["WR-S", "WR-L"]
    , features := ["Watertight seal", "Cleanroom compatible", "Chemical resistant", "Stainless steel option"]
    , price_range := some "$2,500-$6,000"
    , manufacturer := some "ASSA ABLOY DSS" } ]

/-- ASSA ABLOY DSS _create_recommendation (distributors.py lines 1347-1357). -/
def create_recommendation (product : CatalogProduct) (category : String) : ProductRecommendation :=
  { name := product.name
  , category := category
  , description := product.description
  , url := product.url
  , model_numbers := product.model_numbers
  , features := product.features
  , price_range := product.price_range
  , distributor := "ASSA ABLOY Door Security Solutions (" ++ product.manufacturer.getD "" ++ ")" }

/-- ASSA ABLOY DSS get_recommendations (distributors.py lines 1268-1345).
Width and height are read through `float(...)` in the source and never used
afterwards; the reads are kept as discarded lets. -/
def get_recommendations (specs : DoorSpecs) : List ProductRecommendation :=
  let door_type := specs.doorType.getD "interior"
  let material := specs.material.getD "wood"
  let fire_rating := specs.fireRating.getD "none"
  let is_fire_rated : Bool := fire_rating != "none"
  let _width := specs.width.getD 36
  let _height := specs.height.getD 80
  let is_commercial : Bool := ["commercial", "exterior-entry"].contains door_type
  let needs_steel : Bool :=
    ["steel", "fiberglass"].contains material || is_commercial || is_fire_rated
  let specialty_type := specs.specialtyType
  (if needs_steel then
    (if is_fire_rated then
      ((hollow_metal_doors_ceco.drop 1).take 1).map (create_recommendation · "Fire-Rated Steel Doors")
    else
      (hollow_metal_doors_ceco.take 1).map (create_recommendation · "Commercial Steel Doors")
      ++ (hollow_metal_doors_curries.take 1).map (create_recommendation · "Commercial Steel Doors"))
    ++ (hollow_metal_frames_ceco.take 1).map (create_recommendation · "Hollow Metal Frames")
  else [])
  ++ (if specialty_type == some "acoustical" || specs.acoustical.getD false then
    specialty_acoustical.map (create_recommendation · "Acoustical Doors")
  else [])
  ++ (if specialty_type == some "bullet_resistant" || specs.bulletResistant.getD false then
    specialty_bullet_resistant.map (create_recommendation · "Bullet Resistant Doors")
  else [])
  ++ (if specialty_type == some "blast_resistant" || specs.blastResistant.getD false then
    specialty_blast_resistant.map (create_recommendation · "Blast Resistant Doors")
  else [])
  ++ (if specialty_type == some "hurricane_resistant" || specs.hurricaneResistant.getD false then
    specialty_hurricane_resistant.map (create_recommendation · "Hurricane Resistant Doors")
  else [])
  ++ (if specialty_type == some "attack_resistant" || specs.attackResistant.getD false then
    specialty_attack_resistant.map (create_recommendation · "Attack Resistant Doors")
  else [])
  ++ (if specialty_type == some "flood_resistant" || specs.floodResistant.getD false then
    specialty_flood_resistant.map (create_recommendation · "Flood Resistant Doors")
  else [])
  ++ (if specialty_type == some "lead_lined" || specs.leadLined.getD false then
    specialty_lead_lined.map (create_recommendation · "Lead-Lined Doors")
  else [])
  ++ (if specialty_type == some "stainless_steel" || material == "stainless" then
    specialty_stainless_steel.map (create_recommendation · "Stainless Steel Doors")
  else [])
  ++ (if specialty_type == some "emi_shielding" || specs.emiShielding.getD false then
    specialty_emi_rfi_shielding.map (create_recommendation · "EMI/RFI Shielding Doors")
  else [])
  ++ (if is_commercial && specs.aesthetic.getD false then
    hollow_metal_doors_rite_door.map (create_recommendation · "Designer Steel Doors")
  else [])

end AssaAbloyDSSDistributor

/-- The distributor registry (distributors.py lines 1361-1365), in its
insertion order.  Each item pairs the registry id with the vendor's static
metadata and matcher. -/
def DISTRIBUTORS : List (String × DistributorMeta × (DoorSpecs → List ProductRecommendation)) :=
  [ ("dormakaba", DormakabaDistributor.info, DormakabaDistributor.get_recommendations)
  , ("seclock", SecLockDistributor.info, SecLockDistributor.get_recommendations)
  , ("assaabloy_dss", AssaAbloyDSSDistributor.info, AssaAbloyDSSDistributor.get_recommendations) ]

/-- One per-vendor block of the aggregate result (the dict built in the loop
body of get_all_recommendations, lines 1390-1395: registry id, the vendor's
to_dict fields, serialized recommendations, and the count). -/
structure DistResult where
  id : String
  name : String
  website : String
  logo_url : String
  recommendations : List (List (String × PyVal))
  recommendation_count : Nat
deriving DecidableEq, Repr

/-- The aggregate result dictionary (lines 1379-1382 and 1396-1397). -/
structure AggregateResult where
  distributors : List DistResult
  total_recommendations : Nat
deriving DecidableEq, Repr

/-- The block the aggregation loop appends for one registry entry. -/
def distBlock (specs : DoorSpecs)
    (p : String × DistributorMeta × (DoorSpecs → List ProductRecommendation)) : DistResult :=
  let recommendations := p.2.2 specs
  { id := p.1
  , name := p.2.1.name
  , website := p.2.1.website
  , logo_url := p.2.1.logo_url
  , recommendations := recommendations.map ProductRecommendation.to_dict
  , recommendation_count := recommendations.length }

/-- get_all_recommendations (distributors.py lines 1368-1399).  Python's
`if distributor_ids:` treats both None and the empty list as no filter; a
non-empty id list keeps exactly the registry entries whose key occurs in it,
in registry order (the dict comprehension preserves insertion order).  The
source accumulates the blocks and the running total in one loop; the loop is
rendered as a map over the selected registry entries plus the sum of their
per-vendor counts, which is the same computation. -/
def get_all_recommendations (specs : DoorSpecs)
    (distributor_ids : Option (List String)) : AggregateResult :=
  let distributors_to_query :=
    match distributor_ids with
    | some ids => if ids.isEmpty then DISTRIBUTORS else DISTRIBUTORS.filter (fun p => ids.contains p.1)
    | Option.none => DISTRIBUTORS
  { distributors := distributors_to_query.map (distBlock specs)
  , total_recommendations := (distributors_to_query.map (fun p => (p.2.2 specs).length)).sum }

/-- get_available_distributors (distributors.py lines 1402-1407). -/
def get_available_distributors : List (String × DistributorMeta) :=
  DISTRIBUTORS.map (fun p => (p.1, p.2.1))

/-!
Raw-specification model.  The HTTP view (views.py lines 419-434) passes the
request dictionary to get_all_recommendations unvalidated, so a `width` or
`height` value can be a string that `float(...)` cannot parse.  `RawNum`
models such a value: `num q` is a number or a numeric string (both coerce to
the same float), `str` is a value float() rejects with ValueError and that
Python's `<=`/`>=` against a number rejects with TypeError.  Matcher faults
are modelled in `Except String`.
-/

/-- Raw caller-supplied numeric field before coercion. -/
inductive RawNum where
  | num (q : Rat)
  | str
deriving DecidableEq, Repr

/-- Python float(x): identity on numbers and numeric strings, ValueError on
a non-numeric string. -/
def pyFloat : RawNum → Except String Rat
  | .num q => .ok q
  | .str => .error "ValueError: could not convert string to float"

/-- Python `x <= c` on a raw value: TypeError when x is a string compared
against a number. -/
def pyLe (x : RawNum) (c : Rat) : Except String Bool :=
  match x with
  | .num q => .ok (decide (q ≤ c))
  | .str => .error "TypeError: not supported between str and int"

/-- Python `x >= c` on a raw value. -/
def pyGe (x : RawNum) (c : Rat) : Except String Bool :=
  match x with
  | .num q => .ok (decide (q ≥ c))
  | .str => .error "TypeError: not supported between str and int"

/-- The raw request dictionary: like DoorSpecs, but width/height are raw. -/
structure RawSpecs where
  width : Option RawNum := Option.none
  height : Option RawNum := Option.none
  thickness : Option String := Option.none
  doorType : Option String := Option.none
  material : Option String := Option.none
  hardware : Option (List String) := Option.none
  fireRating : Option String := Option.none
  hasGlass : Option Bool := Option.none
  glassType : Option String := Option.none
  prepType : Option String := Option.none
  hingeCount : Option Int := Option.none
  specialtyType : Option String := Option.none
  acoustical : Option Bool := Option.none
  bulletResistant : Option Bool := Option.none
  blastResistant : Option Bool := Option.none
  hurricaneResistant : Option Bool := Option.none
  attackResistant : Option Bool := Option.none
  floodResistant : Option Bool := Option.none
  leadLined : Option Bool := Option.none
  emiShielding : Option Bool := Option.none
  aesthetic : Option Bool := Option.none
deriving DecidableEq, Repr

/-- A raw specification with its width and height replaced by coerced
numbers; all other fields pass through unchanged. -/
def RawSpecs.coerced (specs : RawSpecs) (w h : Rat) : DoorSpecs :=
  { width := some w
  , height := some h
  , thickness := specs.thickness
  , doorType := specs.doorType
  , material := specs.material
  , hardware := specs.hardware
  , fireRating := specs.fireRating
  , hasGlass := specs.hasGlass
  , glassType := specs.glassType
  , prepType := specs.prepType
  , hingeCount := specs.hingeCount
  , specialtyType := specs.specialtyType
  , acoustical := specs.acoustical
  , bulletResistant := specs.bulletResistant
  , blastResistant := specs.blastResistant
  , hurricaneResistant := specs.hurricaneResistant
  , attackResistant := specs.attackResistant
  , floodResistant := specs.floodResistant
  , leadLined := specs.leadLined
  , emiShielding := specs.emiShielding
  , aesthetic := specs.aesthetic }

namespace DormakabaDistributor

/-- The width filter of the Dormakaba surface-closer loop (line 321) over a
raw width: each iteration evaluates `width <= closer.get('max_door_width',
48)`, which faults on a string width. -/
def filter_width_le (width : RawNum) : List CatalogProduct → Except String (List CatalogProduct)
  | [] => .ok []
  | closer :: rest => do
    let keep ← pyLe width (closer.max_door_width.getD 48)
    let tail ← filter_width_le width rest
    .ok (if keep then closer :: tail else tail)

/-- The rim-device width filter (line 349) over a raw width; Python's `and`
short-circuits, so the upper-bound test runs only when the lower-bound test
returned True. -/
def filter_width_bounds (width : RawNum) : List CatalogProduct → Except String (List CatalogProduct)
  | [] => .ok []
  | device :: rest => do
    let lo ← pyGe width (device.min_door_width.getD 30)
    let keep ← if lo then pyLe width (device.max_door_width.getD 48) else Except.ok false
    let tail ← filter_width_bounds width rest
    .ok (if keep then device :: tail else tail)

/-- Dormakaba get_recommendations over a raw request dictionary: identical
rule structure to `get_recommendations`, except that the uncoerced `width`
(line 309 reads it without float()) makes every comparison against it
fallible.  Python's `or`/`and` short-circuiting around those comparisons is
preserved. -/
def get_recommendations_raw (specs : RawSpecs) : Except String (List ProductRecommendation) := do
  let door_type := specs.doorType.getD "interior"
  let hardware_list := (specs.hardware.getD []).map pyLower
  let fire_rating := specs.fireRating.getD "none"
  let has_glass := specs.hasGlass.getD false
  let width := specs.width.getD (.num 36)
  let prep_type := specs.prepType.getD "single-bore"
  let is_fire_rated : Bool := fire_rating != "none"
  let is_commercial : Bool := ["commercial", "exterior-entry"].contains door_type
  let closers_block ←
    if hardware_list.contains "doorcloser" || is_commercial then do
      let surface ←
        if is_commercial then do
          let kept ← filter_width_le width surface_mounted
          Except.ok (kept.map (create_recommendation · "Door Closers"))
        else Except.ok []
      Except.ok (surface ++ (concealed.take 1).map (create_recommendation · "Door Closers"))
    else Except.ok []
  let locks_block :=
    if hardware_list.contains "lockset" || hardware_list.contains "handle" then
      (if prep_type == "mortise" || is_commercial then
        mortise.map (create_recommendation · "Mechanical Locks")
      else [])
      ++ cylindrical.map (create_recommendation · "Mechanical Locks")
    else []
  let deadbolt_block :=
    if hardware_list.contains "deadbolt" then
      deadbolt.map (create_recommendation · "Mechanical Locks")
    else []
  let exit_cond ←
    if door_type == "commercial" then Except.ok true
    else if door_type == "exterior-entry" then pyGe width 30
    else Except.ok false
  let exit_block ←
    if exit_cond then
      if has_glass then
        Except.ok (narrow_stile.map (create_recommendation · "Exit Devices"))
      else do
        let kept ← filter_width_bounds width rim
        Except.ok (kept.map (create_recommendation · "Exit Devices"))
    else Except.ok []
  let operators_block :=
    if ["commercial", "exterior-entry"].contains door_type then
      low_energy_operators.map (create_recommendation · "Door Operators")
    else []
  let fire_block :=
    if is_fire_rated then
      fire_life_safety.map (create_recommendation · "Fire/Life Safety")
    else []
  let keyless_block :=
    if ["commercial", "interior"].contains door_type then
      (simplex_locks.take 1).map (create_recommendation · "Keyless Entry")
      ++ (electronic_access.take 1).map (create_recommendation · "Electronic Access")
    else []
  Except.ok (closers_block ++ locks_block ++ deadbolt_block ++ exit_block
    ++ operators_block ++ fire_block ++ keyless_block)

end DormakabaDistributor

namespace SecLockDistributor

/-- SecLock get_recommendations over a raw request dictionary: lines 885-886
coerce width and height with float() before any rule runs (the preceding
reads are pure dictionary lookups), so a non-numeric value faults here and
otherwise the matcher behaves as the coerced pure matcher. -/
def get_recommendations_raw (specs : RawSpecs) : Except String (List ProductRecommendation) := do
  let width ← pyFloat (specs.width.getD (.num 36))
  let height ← pyFloat (specs.height.getD (.num 80))
  Except.ok (get_recommendations (specs.coerced width height))

end SecLockDistributor

namespace AssaAbloyDSSDistributor

/-- ASSA ABLOY DSS get_recommendations over a raw request dictionary: lines
1276-1277 coerce width and height with float() before any rule runs. -/
def get_recommendations_raw (specs : RawSpecs) : Except String (List ProductRecommendation) := do
  let width ← pyFloat (specs.width.getD (.num 36))
  let height ← pyFloat (specs.height.getD (.num 80))
  Except.ok (get_recommendations (specs.coerced width height))

end AssaAbloyDSSDistributor

/-- The registry with the matchers in their raw (fallible) form. -/
def RAW_DISTRIBUTORS :
    List (String × DistributorMeta × (RawSpecs → Except String (List ProductRecommendation))) :=
  [ ("dormakaba", DormakabaDistributor.info, DormakabaDistributor.get_recommendations_raw)
  , ("seclock", SecLockDistributor.info, SecLockDistributor.get_recommendations_raw)
  , ("assaabloy_dss", AssaAbloyDSSDistributor.info, AssaAbloyDSSDistributor.get_recommendations_raw) ]

/-- The aggregation loop of get_all_recommendations over raw input: each
iteration calls the vendor matcher and appends its block; the first fault
aborts the loop and the whole call (views.py catches it and returns an
error response; the partially built result dictionary is discarded). -/
def raw_blocks (specs : RawSpecs) :
    List (String × DistributorMeta × (RawSpecs → Except String (List ProductRecommendation))) →
    Except String (List DistResult)
  | [] => .ok []
  | p :: rest => do
    let recommendations ← p.2.2 specs
    let tail ← raw_blocks specs rest
    .ok ({ id := p.1
         , name := p.2.1.name
         , website := p.2.1.website
         , logo_url := p.2.1.logo_url
         , recommendations := recommendations.map ProductRecommendation.to_dict
         , recommendation_count := recommendations.length } :: tail)

/-- get_all_recommendations over a raw request dictionary: same vendor
selection as the pure model, with faults propagating out of the loop. -/
def get_all_recommendations_raw (specs : RawSpecs)
    (distributor_ids : Option (List String)) : Except String AggregateResult := do
  let distributors_to_query :=
    match distributor_ids with
    | some ids => if ids.isEmpty then RAW_DISTRIBUTORS else RAW_DISTRIBUTORS.filter (fun p => ids.contains p.1)
    | Option.none => RAW_DISTRIBUTORS
  let blocks ← raw_blocks specs distributors_to_query
  .ok { distributors := blocks
      , total_recommendations := (blocks.map (·.recommendation_count)).sum }

/-!
Generic helper lemmas about the list combinators the matchers are built
from.  These are shared by several claim proofs.
-/

/-- Membership in a guarded block with empty alternative. -/
theorem forall_mem_ite_nil {α : Type} {c : Prop} [Decidable c] {l : List α} {P : α → Prop}
    (h : ∀ x ∈ l, P x) : ∀ x ∈ (if c then l else []), P x := by
  split
  · exact h
  · intro x hx; cases hx

/-- Membership in a guarded block with two alternatives. -/
theorem forall_mem_ite {α : Type} {c : Prop} [Decidable c] {l l' : List α} {P : α → Prop}
    (h : ∀ x ∈ l, P x) (h' : ∀ x ∈ l', P x) : ∀ x ∈ (if c then l else l'), P x := by
  split
  · exact h
  · exact h'

/-- Membership in a concatenation of two blocks. -/
theorem forall_mem_append2 {α : Type} {l l' : List α} {P : α → Prop}
    (h : ∀ x ∈ l, P x) (h' : ∀ x ∈ l', P x) : ∀ x ∈ l ++ l', P x := by
  intro x hx
  rcases List.mem_append.1 hx with h1 | h1
  · exact h x h1
  · exact h' x h1

/-- Membership transported through map. -/
theorem forall_mem_map_of {α β : Type} {f : α → β} {l : List α} {P : β → Prop}
    (h : ∀ x ∈ l, P (f x)) : ∀ y ∈ l.map f, P y := by
  intro y hy
  rcases List.mem_map.1 hy with ⟨x, hx, rfl⟩
  exact h x hx

/-- Membership transported through filter. -/
theorem forall_mem_filter_of {α : Type} {p : α → Bool} {l : List α} {P : α → Prop}
    (h : ∀ x ∈ l, P x) : ∀ x ∈ l.filter p, P x :=
  fun x hx => h x (List.mem_filter.1 hx).1

/-- Filtering a recommendation list that a single rule emitted under one
category label keeps nothing when the category predicate rejects that
label.  The create functions of all three vendors stamp the given category
on the entry, which is the `hf` hypothesis. -/
theorem cat_filter_map_nil {f : CatalogProduct → String → ProductRecommendation}
    (hf : ∀ p c, (f p c).category = c) (l : List CatalogProduct) {cat : String}
    {q : String → Bool} (h : q cat = false) :
    (l.map (fun p => f p cat)).filter (fun r => q r.category) = [] := by
  induction l with
  | nil => rfl
  | cons a t ih => simp [List.filter_cons, hf, h, ih]

/-- Filtering a recommendation list that a single rule emitted under one
category label keeps everything when the category predicate accepts it. -/
theorem cat_filter_map_all {f : CatalogProduct → String → ProductRecommendation}
    (hf : ∀ p c, (f p c).category = c) (l : List CatalogProduct) {cat : String}
    {q : String → Bool} (h : q cat = true) :
    (l.map (fun p => f p cat)).filter (fun r => q r.category) = l.map (fun p => f p cat) := by
  induction l with
  | nil => rfl
  | cons a t ih => simp [List.filter_cons, hf, h, ih]

/-- Filter distributes over a guarded block. -/
theorem filter_ite {α : Type} (p : α → Bool) {c : Prop} [Decidable c] (l l' : List α) :
    (if c then l else l').filter p = if c then l.filter p else l'.filter p := by
  split <;> rfl

/-- The per-vendor counts of mapped blocks are the matcher output lengths. -/
theorem block_total (specs : DoorSpecs)
    (q : List (String × DistributorMeta × (DoorSpecs → List ProductRecommendation))) :
    ((q.map (distBlock specs)).map (fun b => b.recommendation_count)).sum
      = (q.map (fun p => (p.2.2 specs).length)).sum := by
  induction q with
  | nil => rfl
  | cons a t ih => simp only [List.map_cons, List.sum_cons, ih]; rfl

/-- Mapping the block ids over a filtered registry is the filtered id list. -/
theorem map_id_filter (specs : DoorSpecs) (q : String → Bool)
    (l : List (String × DistributorMeta × (DoorSpecs → List ProductRecommendation))) :
    ((l.filter (fun p => q p.1)).map (distBlock specs)).map DistResult.id
      = (l.map Prod.fst).filter q := by
  induction l with
  | nil => rfl
  | cons a t ih =>
    by_cases hq : q a.1 = true
    · simp [List.filter_cons, hq, distBlock, ih]
    · simp only [List.filter_cons, List.map_cons]
      rw [if_neg (by simp [hq]), if_neg (by simp [hq])]
      exact ih

/-- C1: in every aggregate result each vendor block's recommendation_count
equals the length of its recommendations list, and total_recommendations is
the sum of the per-block counts. -/
theorem aggregate_count_invariant (specs : DoorSpecs) (ids : Option (List String)) :
    ((get_all_recommendations specs ids).distributors.all
        (fun b => b.recommendation_count == b.recommendations.length)) = true ∧
    (get_all_recommendations specs ids).total_recommendations =
      ((get_all_recommendations specs ids).distributors.map
        (fun b => b.recommendation_count)).sum := by
  constructor
  · rw [List.all_eq_true]
    intro b hb
    simp only [get_all_recommendations] at hb
    rcases List.mem_map.1 hb with ⟨p, _, rfl⟩
    simp [distBlock]
  · simp only [get_all_recommendations]
    exact (block_total specs _).symm

/-- C2: for a non-empty id filter, the aggregate returns exactly the blocks
of the requested ids that exist in the registry, in registry insertion
order; unknown ids are dropped without error.  The registry order is
dormakaba, seclock, assaabloy_dss. -/
theorem vendor_filter_exact (specs : DoorSpecs) (ids : List String) (h : ids ≠ []) :
    (get_all_recommendations specs (some ids)).distributors.map DistResult.id =
      (DISTRIBUTORS.map Prod.fst).filter (fun i => ids.contains i) ∧
    DISTRIBUTORS.map Prod.fst = ["dormakaba", "seclock", "assaabloy_dss"] := by
  have hne : ids.isEmpty = false := by
    cases ids with
    | nil => exact absurd rfl h
    | cons a t => rfl
  constructor
  · simp only [get_all_recommendations, hne, Bool.false_eq_true, if_false]
    exact map_id_filter specs (fun i => ids.contains i) DISTRIBUTORS
  · rfl

/-- Witness for C2 at a concrete request mixing one known and one unknown
vendor id. -/
theorem vendor_filter_exact_witness :
    (["seclock", "unknown_vendor"] : List String) ≠ [] ∧
    (get_all_recommendations {} (some ["seclock", "unknown_vendor"])).distributors.map
      DistResult.id = ["seclock"] := by
  refine ⟨by simp, ?_⟩
  have h := vendor_filter_exact {} ["seclock", "unknown_vendor"] (by simp)
  rw [h.1]
  rfl

/-- Category predicate used in the claim statements: the entry category is
exactly the given label. -/
def categoryIs (target : String) (c : String) : Bool := c == target

/-- The category labels under which the matchers emit fire/life-safety
entries: Dormakaba uses "Fire/Life Safety" (line 360), SecLock uses
"Fire Door Hardware" and "Fire Door Seals" (lines 971, 974). -/
def isFireSafetyCategory (c : String) : Bool :=
  c == "Fire/Life Safety" || c == "Fire Door Hardware" || c == "Fire Door Seals"

/-- Membership in a dead guarded block. -/
theorem forall_mem_ite_nil_of_false {α : Type} {c : Bool} {l : List α} {P : α → Prop}
    (h : c = false) : ∀ x ∈ (if c = true then l else []), P x := by
  simp [h]

/-- Entries emitted by one rule all carry its category label, so a category
predicate that rejects the label rejects every emitted entry. -/
theorem forall_mem_map_cat_q {f : CatalogProduct → String → ProductRecommendation}
    (hf : ∀ p c, (f p c).category = c) {l : List CatalogProduct} {cat : String}
    {q : String → Bool} (h : q cat = false) :
    ∀ r ∈ l.map (fun p => f p cat), ¬(q r.category = true) := by
  intro r hr
  rcases List.mem_map.1 hr with ⟨p, _, rfl⟩
  rw [hf, h]
  simp

/-- Filtering the entries one Dormakaba rule emitted by a category
predicate keeps all of them or none, depending on the predicate's verdict
on the rule's label. -/
theorem dorm_cat_filter_q (q : String → Bool) (l : List CatalogProduct) (cat : String) :
    (l.map (fun p => DormakabaDistributor.create_recommendation p cat)).filter
        (fun r => q r.category)
      = if q cat = true then l.map (fun p => DormakabaDistributor.create_recommendation p cat)
        else [] := by
  induction l with
  | nil => split <;> rfl
  | cons a t ih =>
    simp only [List.map_cons, List.filter_cons,
      show (DormakabaDistributor.create_recommendation a cat).category = cat from rfl, ih]
    by_cases hq : q cat = true
    · simp [hq]
    · simp [hq]

/-- SecLock analogue of `dorm_cat_filter_q`. -/
theorem seclock_cat_filter_q (q : String → Bool) (l : List CatalogProduct) (cat : String) :
    (l.map (fun p => SecLockDistributor.create_recommendation p cat)).filter
        (fun r => q r.category)
      = if q cat = true then l.map (fun p => SecLockDistributor.create_recommendation p cat)
        else [] := by
  induction l with
  | nil => split <;> rfl
  | cons a t ih =>
    simp only [List.map_cons, List.filter_cons,
      show (SecLockDistributor.create_recommendation a cat).category = cat from rfl, ih]
    by_cases hq : q cat = true
    · simp [hq]
    · simp [hq]

/-- ASSA ABLOY DSS analogue of `dorm_cat_filter_q`. -/
theorem assa_cat_filter_q (q : String → Bool) (l : List CatalogProduct) (cat : String) :
    (l.map (fun p => AssaAbloyDSSDistributor.create_recommendation p cat)).filter
        (fun r => q r.category)
      = if q cat = true then l.map (fun p => AssaAbloyDSSDistributor.create_recommendation p cat)
        else [] := by
  induction l with
  | nil => split <;> rfl
  | cons a t ih =>
    simp only [List.map_cons, List.filter_cons,
      show (AssaAbloyDSSDistributor.create_recommendation a cat).category = cat from rfl, ih]
    by_cases hq : q cat = true
    · simp [hq]
    · simp [hq]

/-- C5: for a commercial door with glass, Dormakaba's Exit Devices output
is exactly the narrow-stile family — so at least one narrow-stile entry is
emitted and no rim entry is (the two branches are mutually exclusive). -/
theorem glass_exclusivity (specs : DoorSpecs)
    (h1 : specs.doorType.getD "interior" = "commercial")
    (h2 : specs.hasGlass.getD false = true) :
    (DormakabaDistributor.get_recommendations specs).filter
        (fun r => categoryIs "Exit Devices" r.category)
      = DormakabaDistributor.narrow_stile.map
          (fun p => DormakabaDistributor.create_recommendation p "Exit Devices") ∧
    DormakabaDistributor.narrow_stile.map
        (fun p => DormakabaDistributor.create_recommendation p "Exit Devices") ≠ [] := by
  constructor
  · simp only [DormakabaDistributor.get_recommendations, h1, h2]
    simp only [List.filter_append, filter_ite, List.filter_nil, dorm_cat_filter_q]
    simp +decide [categoryIs]
  · simp [DormakabaDistributor.narrow_stile]

/-- Witness for C5 at a concrete commercial glass-door specification. -/
theorem glass_exclusivity_witness :
    (DormakabaDistributor.get_recommendations
        { doorType := some "commercial", hasGlass := some true }).filter
        (fun r => categoryIs "Exit Devices" r.category)
      = DormakabaDistributor.narrow_stile.map
          (fun p => DormakabaDistributor.create_recommendation p "Exit Devices") ∧
    DormakabaDistributor.narrow_stile.map
        (fun p => DormakabaDistributor.create_recommendation p "Exit Devices") ≠ [] :=
  glass_exclusivity { doorType := some "commercial", hasGlass := some true } rfl rfl

/-- C7: an exterior-entry door narrower than Dormakaba's 30-inch egress
minimum receives no Exit Devices entry from Dormakaba. -/
theorem narrow_exterior_no_exit_devices (specs : DoorSpecs)
    (h1 : specs.doorType.getD "interior" = "exterior-entry")
    (h2 : specs.width.getD 36 < 30) :
    (DormakabaDistributor.get_recommendations specs).filter
      (fun r => categoryIs "Exit Devices" r.category) = [] := by
  have hw : (decide (specs.width.getD 36 ≥ 30)) = false := decide_eq_false (not_le.2 h2)
  apply List.filter_eq_nil_iff.2
  simp only [DormakabaDistributor.get_recommendations]
  have hcond : (specs.doorType.getD "interior" == "commercial"
      || (specs.doorType.getD "interior" == "exterior-entry"
          && decide (specs.width.getD 36 ≥ 30))) = false := by
    rw [h1, hw]
    rfl
  refine forall_mem_append2 (forall_mem_append2 (forall_mem_append2 (forall_mem_append2
    (forall_mem_append2 (forall_mem_append2 ?b1 ?b2) ?b3) ?b4) ?b5) ?b6) ?b7
  case b1 =>
    exact forall_mem_ite_nil (forall_mem_append2
      (forall_mem_ite_nil (forall_mem_map_cat_q (fun _ _ => rfl) (by decide)))
      (forall_mem_map_cat_q (fun _ _ => rfl) (by decide)))
  case b2 =>
    exact forall_mem_ite_nil (forall_mem_append2
      (forall_mem_ite_nil (forall_mem_map_cat_q (fun _ _ => rfl) (by decide)))
      (forall_mem_map_cat_q (fun _ _ => rfl) (by decide)))
  case b3 =>
    exact forall_mem_ite_nil (forall_mem_map_cat_q (fun _ _ => rfl) (by decide))
  case b4 =>
    exact forall_mem_ite_nil_of_false hcond
  case b5 =>
    exact forall_mem_ite_nil (forall_mem_map_cat_q (fun _ _ => rfl) (by decide))
  case b6 =>
    exact forall_mem_ite_nil (forall_mem_map_cat_q (fun _ _ => rfl) (by decide))
  case b7 =>
    exact forall_mem_ite_nil (forall_mem_append2
      (forall_mem_map_cat_q (fun _ _ => rfl) (by decide))
      (forall_mem_map_cat_q (fun _ _ => rfl) (by decide)))

/-- Witness for C7 at a 24-inch exterior-entry door. -/
theorem narrow_exterior_no_exit_devices_witness :
    (DormakabaDistributor.get_recommendations
        { doorType := some "exterior-entry", width := some 24 }).filter
      (fun r => categoryIs "Exit Devices" r.category) = [] :=
  narrow_exterior_no_exit_devices { doorType := some "exterior-entry", width := some 24 }
    rfl (by norm_num)

/-- C6: with a fire rating, every vendor defining fire/life-safety
categories (Dormakaba and SecLock) emits its full fire/life-safety product
family regardless of all other attributes; without one, no vendor emits any
fire/life-safety entry. -/
theorem fire_rating_propagation (specs : DoorSpecs) :
    (specs.fireRating.getD "none" ≠ "none" →
      (DormakabaDistributor.get_recommendations specs).filter
          (fun r => isFireSafetyCategory r.category)
        = DormakabaDistributor.fire_life_safety.map
            (fun p => DormakabaDistributor.create_recommendation p "Fire/Life Safety") ∧
      DormakabaDistributor.fire_life_safety.map
          (fun p => DormakabaDistributor.create_recommendation p "Fire/Life Safety") ≠ [] ∧
      (SecLockDistributor.get_recommendations specs).filter
          (fun r => isFireSafetyCategory r.category)
        = SecLockDistributor.fire_safety_lcn.map
            (fun p => SecLockDistributor.create_recommendation p "Fire Door Hardware")
          ++ SecLockDistributor.weatherstripping_ngp.map
            (fun p => SecLockDistributor.create_recommendation p "Fire Door Seals") ∧
      SecLockDistributor.fire_safety_lcn.map
          (fun p => SecLockDistributor.create_recommendation p "Fire Door Hardware")
        ++ SecLockDistributor.weatherstripping_ngp.map
          (fun p => SecLockDistributor.create_recommendation p "Fire Door Seals") ≠ []) ∧
    (specs.fireRating.getD "none" = "none" →
      (DormakabaDistributor.get_recommendations specs).filter
          (fun r => isFireSafetyCategory r.category) = [] ∧
      (SecLockDistributor.get_recommendations specs).filter
          (fun r => isFireSafetyCategory r.category) = [] ∧
      (AssaAbloyDSSDistributor.get_recommendations specs).filter
          (fun r => isFireSafetyCategory r.category) = []) := by
  constructor
  · intro h
    have hb : (specs.fireRating.getD "none" != "none") = true := by
      simp only [bne_iff_ne]
      exact h
    refine ⟨?_, by simp [DormakabaDistributor.fire_life_safety], ?_,
      by simp [SecLockDistributor.fire_safety_lcn]⟩
    · simp only [DormakabaDistributor.get_recommendations, hb]
      simp only [List.filter_append, filter_ite, List.filter_nil, dorm_cat_filter_q]
      simp +decide [isFireSafetyCategory]
    · simp only [SecLockDistributor.get_recommendations, hb]
      simp only [List.filter_append, filter_ite, List.filter_nil, seclock_cat_filter_q]
      simp +decide [isFireSafetyCategory]
  · intro h
    have hb : (specs.fireRating.getD "none" != "none") = false := by
      simp [h]
    refine ⟨?_, ?_, ?_⟩
    · simp only [DormakabaDistributor.get_recommendations, hb]
      simp only [List.filter_append, filter_ite, List.filter_nil, dorm_cat_filter_q]
      simp +decide [isFireSafetyCategory]
    · simp only [SecLockDistributor.get_recommendations, hb]
      simp only [List.filter_append, filter_ite, List.filter_nil, seclock_cat_filter_q]
      simp +decide [isFireSafetyCategory]
    · simp only [AssaAbloyDSSDistributor.get_recommendations]
      simp only [List.filter_append, filter_ite, List.filter_nil, assa_cat_filter_q]
      simp +decide [isFireSafetyCategory]

/-- Witness for C6: the fire-rated direction at scenario B (commercial,
width 34, fireRating 60-min, lockset) and the none direction at scenario A
(36x80 interior wood door with no hardware). -/
theorem fire_rating_propagation_witness :
    ((DormakabaDistributor.get_recommendations
        { doorType := some "commercial", width := some 34, fireRating := some "60-min"
        , hasGlass := some false, hardware := some ["lockset"] }).filter
          (fun r => isFireSafetyCategory r.category)
        = DormakabaDistributor.fire_life_safety.map
            (fun p => DormakabaDistributor.create_recommendation p "Fire/Life Safety") ∧
      DormakabaDistributor.fire_life_safety.map
          (fun p => DormakabaDistributor.create_recommendation p "Fire/Life Safety") ≠ [] ∧
      (SecLockDistributor.get_recommendations
        { doorType := some "commercial", width := some 34, fireRating := some "60-min"
        , hasGlass := some false, hardware := some ["lockset"] }).filter
          (fun r => isFireSafetyCategory r.category)
        = SecLockDistributor.fire_safety_lcn.map
            (fun p => SecLockDistributor.create_recommendation p "Fire Door Hardware")
          ++ SecLockDistributor.weatherstripping_ngp.map
            (fun p => SecLockDistributor.create_recommendation p "Fire Door Seals") ∧
      SecLockDistributor.fire_safety_lcn.map
          (fun p => SecLockDistributor.create_recommendation p "Fire Door Hardware")
        ++ SecLockDistributor.weatherstripping_ngp.map
          (fun p => SecLockDistributor.create_recommendation p "Fire Door Seals") ≠ []) ∧
    ((DormakabaDistributor.get_recommendations
        { width := some 36, height := some 80, doorType := some "interior"
        , material := some "wood", hardware := some [], fireRating := some "none"
        , hasGlass := some false }).filter
          (fun r => isFireSafetyCategory r.category) = [] ∧
      (SecLockDistributor.get_recommendations
        { width := some 36, height := some 80, doorType := some "interior"
        , material := some "wood", hardware := some [], fireRating := some "none"
        , hasGlass := some false }).filter
          (fun r => isFireSafetyCategory r.category) = [] ∧
      (AssaAbloyDSSDistributor.get_recommendations
        { width := some 36, height := some 80, doorType := some "interior"
        , material := some "wood", hardware := some [], fireRating := some "none"
        , hasGlass := some false }).filter
          (fun r => isFireSafetyCategory r.category) = []) := by
  constructor
  · exact (fire_rating_propagation
      { doorType := some "commercial", width := some 34, fireRating := some "60-min"
      , hasGlass := some false, hardware := some ["lockset"] }).1 (by decide)
  · exact (fire_rating_propagation
      { width := some 36, height := some 80, doorType := some "interior"
      , material := some "wood", hardware := some [], fireRating := some "none"
      , hasGlass := some false }).2 rfl

/-- Bool predicate for C8: the entry has a non-empty name and category, and
its serialized dictionary carries the model_numbers and price_range keys
(model_numbers is a list by construction, possibly empty). -/
def hasRequiredFields (r : ProductRecommendation) : Bool :=
  (r.name != "") && (r.category != "") &&
  (r.to_dict.map Prod.fst).contains "model_numbers" &&
  (r.to_dict.map Prod.fst).contains "price_range"

/-- C8: every entry emitted by any of the three matchers, on every
specification, has a non-empty name and category and serializes with the
model_numbers and price_range keys present. -/
theorem entry_fields_always_present (specs : DoorSpecs) :
    ((DormakabaDistributor.get_recommendations specs).all hasRequiredFields) = true ∧
    ((SecLockDistributor.get_recommendations specs).all hasRequiredFields) = true ∧
    ((AssaAbloyDSSDistributor.get_recommendations specs).all hasRequiredFields) = true := by
  refine ⟨?_, ?_, ?_⟩
  · rw [List.all_eq_true]
    simp only [DormakabaDistributor.get_recommendations]
    refine forall_mem_append2 (forall_mem_append2 (forall_mem_append2 (forall_mem_append2
      (forall_mem_append2 (forall_mem_append2 ?b1 ?b2) ?b3) ?b4) ?b5) ?b6) ?b7
    case b1 =>
      exact forall_mem_ite_nil (forall_mem_append2
        (forall_mem_ite_nil (forall_mem_map_of (forall_mem_filter_of (by decide))))
        (by decide))
    case b2 =>
      exact forall_mem_ite_nil (forall_mem_append2 (forall_mem_ite_nil (by decide)) (by decide))
    case b3 => exact forall_mem_ite_nil (by decide)
    case b4 =>
      exact forall_mem_ite_nil (forall_mem_ite (by decide)
        (forall_mem_map_of (forall_mem_filter_of (by decide))))
    case b5 => exact forall_mem_ite_nil (by decide)
    case b6 => exact forall_mem_ite_nil (by decide)
    case b7 => exact forall_mem_ite_nil (forall_mem_append2 (by decide) (by decide))
  · rw [List.all_eq_true]
    simp only [SecLockDistributor.get_recommendations]
    refine forall_mem_append2 (forall_mem_append2 (forall_mem_append2 (forall_mem_append2
      (forall_mem_append2 (forall_mem_append2 (forall_mem_append2 (forall_mem_append2
      (forall_mem_append2 (forall_mem_append2 (forall_mem_append2 (forall_mem_append2
      (forall_mem_append2 ?b1 ?b2) ?b3) ?b4) ?b5) ?b6) ?b7) ?b8) ?b9) ?b10) ?b11) ?b12) ?b13) ?b14
    case b1 => exact forall_mem_ite_nil (forall_mem_ite (by decide) (by decide))
    case b2 =>
      exact forall_mem_ite_nil
        (forall_mem_ite (forall_mem_append2 (by decide) (by decide)) (by decide))
    case b3 => exact forall_mem_ite_nil (forall_mem_ite (by decide) (by decide))
    case b4 => exact forall_mem_ite_nil (forall_mem_append2 (by decide) (by decide))
    case b5 => exact forall_mem_ite (by decide) (by decide)
    case b6 => exact forall_mem_ite_nil (by decide)
    case b7 => exact forall_mem_ite_nil (by decide)
    case b8 => exact forall_mem_ite_nil (by decide)
    case b9 => exact forall_mem_ite_nil (forall_mem_append2 (by decide) (by decide))
    case b10 => exact forall_mem_ite_nil (forall_mem_append2 (by decide) (by decide))
    case b11 => exact forall_mem_ite_nil (forall_mem_append2 (by decide) (by decide))
    case b12 => exact forall_mem_ite_nil (by decide)
    case b13 => exact forall_mem_ite_nil (by decide)
    case b14 => exact forall_mem_ite_nil (forall_mem_append2 (by decide) (by decide))
  · rw [List.all_eq_true]
    simp only [AssaAbloyDSSDistributor.get_recommendations]
    refine forall_mem_append2 (forall_mem_append2 (forall_mem_append2 (forall_mem_append2
      (forall_mem_append2 (forall_mem_append2 (forall_mem_append2 (forall_mem_append2
      (forall_mem_append2 (forall_mem_append2 ?b1 ?b2) ?b3) ?b4) ?b5) ?b6) ?b7) ?b8) ?b9) ?b10) ?b11
    case b1 =>
      exact forall_mem_ite_nil (forall_mem_append2
        (forall_mem_ite (by decide) (forall_mem_append2 (by decide) (by decide)))
        (by decide))
    case b2 => exact forall_mem_ite_nil (by decide)
    case b3 => exact forall_mem_ite_nil (by decide)
    case b4 => exact forall_mem_ite_nil (by decide)
    case b5 => exact forall_mem_ite_nil (by decide)
    case b6 => exact forall_mem_ite_nil (by decide)
    case b7 => exact forall_mem_ite_nil (by decide)
    case b8 => exact forall_mem_ite_nil (by decide)
    case b9 => exact forall_mem_ite_nil (by decide)
    case b10 => exact forall_mem_ite_nil (by decide)
    case b11 => exact forall_mem_ite_nil (by decide)

/-- C10: for every specification SecLock emits exactly one Hinges-category
entry — the McKinney heavy-weight hinge when the door is heavy (width over
42, height over 84, or steel/fiberglass material), the Hager standard hinge
otherwise — and its output list is never empty. -/
theorem seclock_hinge_rule (specs : DoorSpecs) :
    (SecLockDistributor.get_recommendations specs).filter
        (fun r => categoryIs "Hinges" r.category)
      = (if (decide (specs.width.getD 36 > 42) || decide (specs.height.getD 80 > 84)
            || ["steel", "fiberglass"].contains (specs.material.getD "wood")) = true
        then (SecLockDistributor.hinges_mckinney.take 1).map
              (fun p => SecLockDistributor.create_recommendation p "Hinges")
        else (SecLockDistributor.hinges_hager.take 1).map
              (fun p => SecLockDistributor.create_recommendation p "Hinges")) ∧
    SecLockDistributor.get_recommendations specs ≠ [] := by
  have h1 : (SecLockDistributor.get_recommendations specs).filter
        (fun r => categoryIs "Hinges" r.category)
      = (if (decide (specs.width.getD 36 > 42) || decide (specs.height.getD 80 > 84)
            || ["steel", "fiberglass"].contains (specs.material.getD "wood")) = true
        then (SecLockDistributor.hinges_mckinney.take 1).map
              (fun p => SecLockDistributor.create_recommendation p "Hinges")
        else (SecLockDistributor.hinges_hager.take 1).map
              (fun p => SecLockDistributor.create_recommendation p "Hinges")) := by
    simp only [SecLockDistributor.get_recommendations]
    simp only [List.filter_append, filter_ite, List.filter_nil, seclock_cat_filter_q]
    cases hh : decide (specs.height.getD 80 > 84) <;>
      simp +decide [hh, categoryIs]
  refine ⟨h1, ?_⟩
  intro h0
  rw [h0] at h1
  simp only [List.filter_nil] at h1
  revert h1
  split <;>
    simp [SecLockDistributor.hinges_mckinney, SecLockDistributor.hinges_hager]

/-- C3 counterexample: two requests differing only in the formatting of one
hardware token ("Electric Strike" with a space and capitals versus
"electric_strike") give different SecLock outputs, because SecLock tests
hardware tokens verbatim (line 884) — the claimed normalization does not
happen in the matchers. -/
theorem hardware_formatting_counterexample :
    SecLockDistributor.get_recommendations { hardware := some ["Electric Strike"] } ≠
      SecLockDistributor.get_recommendations { hardware := some ["electric_strike"] } := by
  decide

/-- C3 amended: the only normalization applied to hardware tokens inside the
matchers is Dormakaba's per-token lowercasing (line 306): two requests whose
hardware lists agree after case folding produce identical Dormakaba output.
No matcher strips whitespace or underscores, and SecLock compares tokens
verbatim. -/
theorem dormakaba_hardware_case_fold (specs : DoorSpecs) (hw2 : List String)
    (h : (specs.hardware.getD []).map pyLower = hw2.map pyLower) :
    DormakabaDistributor.get_recommendations { specs with hardware := some hw2 }
      = DormakabaDistributor.get_recommendations specs := by
  simp only [DormakabaDistributor.get_recommendations]
  rw [show ({ specs with hardware := some hw2 } : DoorSpecs).hardware.getD [] = hw2 from rfl,
    ← h]

/-- Witness for the amended C3: "DoorCloser" and "doorcloser" agree after
case folding, so Dormakaba treats them identically. -/
theorem dormakaba_hardware_case_fold_witness :
    DormakabaDistributor.get_recommendations { hardware := some ["doorcloser"] }
      = DormakabaDistributor.get_recommendations { hardware := some ["DoorCloser"] } :=
  dormakaba_hardware_case_fold { hardware := some ["DoorCloser"] } ["doorcloser"] (by decide)

/-- C4 counterexample: on a request with a non-coercible width and interior
door type, the Dormakaba matcher (which reads width without float(), line
309) runs to completion first and produces two recommendations; the
aggregate then fails when SecLock coerces the width (line 885).  So the
failure does not occur before any vendor matcher executes. -/
theorem coercion_failure_after_dormakaba :
    DormakabaDistributor.get_recommendations_raw
        { width := some .str, doorType := some "interior" }
      = Except.ok
          ((DormakabaDistributor.simplex_locks.take 1).map
              (fun p => DormakabaDistributor.create_recommendation p "Keyless Entry")
            ++ (DormakabaDistributor.electronic_access.take 1).map
              (fun p => DormakabaDistributor.create_recommendation p "Electronic Access")) ∧
    ((DormakabaDistributor.simplex_locks.take 1).map
        (fun p => DormakabaDistributor.create_recommendation p "Keyless Entry")
      ++ (DormakabaDistributor.electronic_access.take 1).map
        (fun p => DormakabaDistributor.create_recommendation p "Electronic Access")) ≠ [] ∧
    get_all_recommendations_raw { width := some .str, doorType := some "interior" } Option.none
      = Except.error "ValueError: could not convert string to float" := by
  refine ⟨rfl, ?_, rfl⟩
  simp [DormakabaDistributor.simplex_locks, DormakabaDistributor.electronic_access]

/-- Binding a fault propagates it. -/
theorem except_bind_error {ε α β : Type} (e : ε) (f : α → Except ε β) :
    (Except.error e >>= f) = Except.error e := rfl

/-- Binding a success applies the continuation. -/
theorem except_bind_ok {ε α β : Type} (a : α) (f : α → Except ε β) :
    (Except.ok a >>= f) = f a := rfl

/-- C4 amended: when width or height is not coercible, the full-registry
aggregate call always fails and returns no (partial) aggregate result — but
the failure arises during vendor matching, not before it. -/
theorem noncoercible_width_aborts_aggregate (specs : RawSpecs)
    (h : specs.width = some RawNum.str ∨ specs.height = some RawNum.str) :
    (get_all_recommendations_raw specs Option.none).toOption = Option.none := by
  have hsec : ∃ e, SecLockDistributor.get_recommendations_raw specs = .error e := by
    rcases h with h | h
    · exact ⟨"ValueError: could not convert string to float",
        by simp [SecLockDistributor.get_recommendations_raw, h, pyFloat,
          except_bind_error, except_bind_ok]⟩
    · cases hw : specs.width.getD (.num 36) with
      | num q =>
        exact ⟨"ValueError: could not convert string to float",
          by simp [SecLockDistributor.get_recommendations_raw, hw, h, pyFloat,
            except_bind_error, except_bind_ok]⟩
      | str =>
        exact ⟨"ValueError: could not convert string to float",
          by simp [SecLockDistributor.get_recommendations_raw, hw, pyFloat,
            except_bind_error, except_bind_ok]⟩
  rcases hsec with ⟨e, he⟩
  cases hd : DormakabaDistributor.get_recommendations_raw specs with
  | error e2 =>
    simp [get_all_recommendations_raw, RAW_DISTRIBUTORS, raw_blocks, hd,
      except_bind_error, except_bind_ok, Except.toOption]
  | ok l =>
    simp [get_all_recommendations_raw, RAW_DISTRIBUTORS, raw_blocks, hd, he,
      except_bind_error, except_bind_ok, Except.toOption]

/-- Witness for the amended C4 at a request whose width is a non-numeric
string. -/
theorem noncoercible_width_aborts_aggregate_witness :
    (get_all_recommendations_raw { width := some RawNum.str } Option.none).toOption
      = Option.none :=
  noncoercible_width_aborts_aggregate { width := some RawNum.str } (Or.inl rfl)

/-- C9: an empty vendor-id list behaves exactly like no filter (Python
treats the empty list as falsy), so the full registry is queried and one
block per registered vendor is returned. -/
theorem empty_filter_full_registry (specs : DoorSpecs) :
    get_all_recommendations specs (some []) = get_all_recommendations specs Option.none ∧
    (get_all_recommendations specs (some [])).distributors.map DistResult.id =
      ["dormakaba", "seclock", "assaabloy_dss"] := by
  constructor
  · rfl
  · simp [get_all_recommendations, DISTRIBUTORS, distBlock]

end DoorBuilder
